import Mathlib

/-!
Verification of `deploy_magma.py` (magma-deploy), a shallow embedding in Lean 4.

Strings handled character-wise are modelled as `List Char`; the Python
standard-library pieces the script leans on (`str.split`, `str.strip`,
`str.lower`) are embedded as executable Lean functions below.
-/

namespace MagmaDeploy

/-- Python whitespace characters recognised by `str.strip()`. -/
def isPySpace (c : Char) : Bool :=
  c = ' ' || c = '\t' || c = '\n' || c = '\x0d' || c = '\x0b' || c = '\x0c'

/-- Model of Python `str.strip()` on the character list of a string. -/
def pyStripL (s : List Char) : List Char :=
  ((s.dropWhile isPySpace).reverse.dropWhile isPySpace).reverse

/-- Model of Python `str.strip()` on a `String`. -/
def pyStrip (s : String) : String :=
  String.mk (pyStripL s.toList)

/-- Model of Python `str.lower()` (ASCII case fold, which is all the script uses). -/
def pyLower (s : String) : String :=
  String.mk (s.toList.map Char.toLower)

/-- Model of Python `str.split(sep)` for a one-character separator, on the
character list of the string.  `"".split(sep) = [""]`; a separator occurrence
always opens a new group. -/
def pySplit (sep : Char) : List Char → List (List Char)
  | [] => [[]]
  | c :: cs =>
    if c = sep then [] :: pySplit sep cs
    else (c :: (pySplit sep cs).headD []) :: (pySplit sep cs).tail

theorem pySplit_ne_nil (sep : Char) (s : List Char) : pySplit sep s ≠ [] := by
  cases s with
  | nil => simp [pySplit]
  | cons c cs =>
    simp only [pySplit]
    split <;> simp

theorem pySplit_headD (sep : Char) (s : List Char) :
    (pySplit sep s).headD [] = s.takeWhile (fun c => c != sep) := by
  induction s with
  | nil => simp [pySplit]
  | cons c cs ih =>
    by_cases h : c = sep
    · simp [pySplit, h]
    · simp only [pySplit, if_neg h, List.headD_cons, List.takeWhile_cons, ih]
      have hb : (c != sep) = true := by simpa using h
      rw [hb]
      simp

theorem pySplit_getD_one (sep : Char) (s : List Char) :
    (pySplit sep s).getD 1 [] =
      if s.contains sep then
        ((s.dropWhile (fun c => c != sep)).drop 1).takeWhile (fun c => c != sep)
      else [] := by
  induction s with
  | nil => simp [pySplit]
  | cons c cs ih =>
    by_cases h : c = sep
    · have hc : (c :: cs).contains sep = true := by simp [h]
      rw [if_pos hc]
      have hsplit : pySplit sep (c :: cs) = [] :: pySplit sep cs := by
        simp [pySplit, h]
      rw [hsplit, List.getD_cons_succ]
      have hdw : List.dropWhile (fun x => x != sep) (c :: cs) = c :: cs := by
        rw [List.dropWhile_cons]; simp [h]
      rw [hdw]
      have hdrop : List.drop 1 (c :: cs) = cs := rfl
      rw [hdrop, ← pySplit_headD]
      obtain ⟨g, gs, hg⟩ := List.exists_cons_of_ne_nil (pySplit_ne_nil sep cs)
      rw [hg]
      rfl
    · have hne : pySplit sep cs ≠ [] := pySplit_ne_nil sep cs
      obtain ⟨g, gs, hg⟩ := List.exists_cons_of_ne_nil hne
      have h1 : (pySplit sep (c :: cs)).getD 1 [] = (pySplit sep cs).getD 1 [] := by
        simp only [pySplit, if_neg h, hg]
        cases gs <;> rfl
      rw [h1, ih]
      have hcc : (c :: cs).contains sep = cs.contains sep := by
        simp [List.contains_cons, Ne.symm h]
      rw [hcc]
      have hd : (c :: cs).dropWhile (fun c => c != sep) =
          cs.dropWhile (fun c => c != sep) := by
        rw [List.dropWhile_cons]
        simp [h]
      rw [hd]

/-- Embeds `validate_email` from `deploy_magma.py` (lines 116-118), on the character
list of the string: `"@" in email and "." in email.split("@")[1]`.  When the
string contains an `@`, `split("@")` has at least two groups, so Python's
index `[1]` is total there; `getD` coincides with it on those inputs. -/
def validate_email (email : List Char) : Bool :=
  email.contains '@' && ((pySplit '@' email).getD 1 []).contains '.'

/-- Embeds `validate_email` lifted to `String`. -/
def validateEmailS (s : String) : Bool := validate_email s.toList

/-- Spec-side notion for claim C2: the substring after the last `@`. -/
def afterLastAt (s : List Char) : List Char :=
  (s.reverse.takeWhile (fun c => c != '@')).reverse

/-- Spec-side notion: what the code actually inspects — the segment strictly
after the first `@` and before any second `@`. -/
def afterFirstAtSeg (s : List Char) : List Char :=
  ((s.dropWhile (fun c => c != '@')).drop 1).takeWhile (fun c => c != '@')

theorem validate_email_eq (s : List Char) :
    validate_email s = (s.contains '@' && (afterFirstAtSeg s).contains '.') := by
  unfold validate_email afterFirstAtSeg
  rw [pySplit_getD_one]
  by_cases h : s.contains '@'
  · simp [h]
  · simp [h]

theorem takeWhile_of_no_at (l : List Char) (h : l.contains '@' = false) :
    l.takeWhile (fun c => c != '@') = l := by
  rw [List.takeWhile_eq_self_iff]
  intro a ha
  simp only [List.contains_eq_any_beq, List.any_eq_false] at h
  have h2 := h a ha
  simp only [bne_iff_ne, ne_eq]
  intro hh
  subst hh
  simp at h2

theorem after_only_at_no_at (s : List Char) (h : s.count '@' = 1) :
    ((s.dropWhile (fun c => c != '@')).drop 1).contains '@' = false := by
  induction s with
  | nil => simp at h
  | cons c cs ih =>
    by_cases hc : c = '@'
    · subst hc
      rw [List.count_cons_self] at h
      have h0 : cs.count '@' = 0 := by omega
      have hmem : '@' ∉ cs := by
        rw [← List.count_eq_zero]; exact h0
      rw [List.dropWhile_cons]
      simp only [bne_self_eq_false, Bool.false_eq_true, if_false,
        List.drop_succ_cons, List.drop_zero]
      simpa using hmem
    · rw [List.count_cons_of_ne (by simpa using (Ne.symm hc))] at h
      rw [List.dropWhile_cons]
      have : (c != '@') = true := by simpa using hc
      rw [this]
      simp only [if_true]
      exact ih h

/-- C2: the frozen claim says the validator returns false whenever the
substring after the last `@` contains no `.`.  The code inspects
`email.split("@")[1]`, the segment after the FIRST `@`; on
`"a@b.c@d"` the substring after the last `@` is `"d"` (no dot), yet the
validator returns true. -/
theorem C2_counterexample :
    validate_email ['a', '@', 'b', '.', 'c', '@', 'd'] = true ∧
    afterLastAt ['a', '@', 'b', '.', 'c', '@', 'd'] = ['d'] ∧
    (afterLastAt ['a', '@', 'b', '.', 'c', '@', 'd']).contains '.' = false := by
  decide

/-- C2 (amended): for every string with no `@` the validator returns false;
for every string in which the segment after the FIRST `@` (and before any
second `@`) contains no `.` it returns false; and for every
`user@domain.tld`-shaped string (exactly one `@` with a `.` somewhere after
it) it returns true. -/
theorem C2_email_validator :
    ∀ s : List Char,
    (s.contains '@' = false → validate_email s = false) ∧
    ((afterFirstAtSeg s).contains '.' = false → validate_email s = false) ∧
    (s.count '@' = 1 →
      ((s.dropWhile (fun c => c != '@')).drop 1).contains '.' = true →
      validate_email s = true) := by
  intro s
  refine ⟨?_, ?_, ?_⟩
  · intro h
    unfold validate_email
    rw [h]
    rfl
  · intro h
    rw [validate_email_eq, h]
    simp
  · intro h1 h2
    have hmem : '@' ∈ s := by
      by_contra hm
      rw [List.count_eq_zero.mpr hm] at h1
      simp at h1
    have hcont : s.contains '@' = true := by
      rw [List.contains_eq_any_beq, List.any_eq_true]
      exact ⟨'@', hmem, by simp⟩
    rw [validate_email_eq, hcont]
    unfold afterFirstAtSeg
    rw [takeWhile_of_no_at _ (after_only_at_no_at s h1), h2]
    rfl

/-- Witness for `C2_email_validator` at concrete inputs. -/
theorem C2_email_validator_witness :
    validate_email ['u', 's', 'r', '@', 'd', 'o', 'm', '.', 't', 'l', 'd'] = true ∧
    validate_email ['p', 'l', 'a', 'i', 'n'] = false ∧
    validate_email ['a', '@', 'b', 'c'] = false :=
  ⟨(C2_email_validator _).2.2 (by decide) (by decide),
   (C2_email_validator _).1 (by decide),
   (C2_email_validator _).2.1 (by decide)⟩

/-! ### Interactive prompts -/

/-- One event on the interactive input stream: a line typed by the user, or a
keyboard interrupt (Ctrl-C, raising `KeyboardInterrupt`). -/
inductive Inp
  | line (s : String)
  | intr
deriving DecidableEq, Repr

/-- The abnormal outcomes of the embedded program: end of input
(`EOFError`), a missing configuration key (`KeyError`), a failed external
command (`subprocess.CalledProcessError`), `KeyboardInterrupt`, and
`sys.exit(0)` (`SystemExit`, which `except Exception` does not catch). -/
inductive Err
  | eofErr
  | keyErr (k : String)
  | cmdErr (c : String)
  | interrupted
  | exitZero
deriving DecidableEq, Repr

/-- Embeds `confirm_action` from `deploy_magma.py` (lines 75-84), as a function of
the pending input stream: loop reading lines; `input(...).lower().strip()`
equal to `y`/`yes` answers true, equal to `n`/`no`/`""` answers false,
anything else re-prompts. -/
def confirmLoop : List Inp → (Except Err Bool) × List Inp
  | [] => (.error .eofErr, [])
  | .intr :: rest => (.error .interrupted, rest)
  | .line r :: rest =>
    let resp := pyStrip (pyLower r)
    if resp = "y" ∨ resp = "yes" then (.ok true, rest)
    else if resp = "n" ∨ resp = "no" ∨ resp = "" then (.ok false, rest)
    else confirmLoop rest

/-- C8: the frozen claim says any input other than `y`/`Y`/`yes`/`YES`/
`""`/`n`/`no` re-prompts.  The code lowercases first, so `"N"` — not in any
of those lists — yields false instead of re-prompting (a re-prompt would
have consumed the following `"y"` and answered true). -/
theorem C8_counterexample :
    confirmLoop [.line "N", .line "y"] = (.ok false, [.line "y"]) ∧
    ("N" ≠ "y" ∧ "N" ≠ "Y" ∧ "N" ≠ "yes" ∧ "N" ≠ "YES" ∧
     "N" ≠ "" ∧ "N" ≠ "n" ∧ "N" ≠ "no") := by
  exact ⟨by rfl, by decide⟩

/-- C8 (amended): confirmation input is lowercased and stripped first; if the
result is `y`/`yes` the prompt answers true, if it is `n`/`no`/`""` it
answers false, and otherwise the prompt repeats on the rest of the stream.
In particular `y`, `Y`, `yes`, `YES` answer true and `""`, `n`, `no` answer
false, but so do the other case/whitespace variants of these words. -/
theorem C8_confirm_parsing :
    ∀ (r : String) (rest : List Inp),
    ((pyStrip (pyLower r) = "y" ∨ pyStrip (pyLower r) = "yes") →
      confirmLoop (.line r :: rest) = (.ok true, rest)) ∧
    ((pyStrip (pyLower r) = "n" ∨ pyStrip (pyLower r) = "no" ∨
        pyStrip (pyLower r) = "") →
      confirmLoop (.line r :: rest) = (.ok false, rest)) ∧
    ((pyStrip (pyLower r) ≠ "y" ∧ pyStrip (pyLower r) ≠ "yes" ∧
      pyStrip (pyLower r) ≠ "n" ∧ pyStrip (pyLower r) ≠ "no" ∧
      pyStrip (pyLower r) ≠ "") →
      confirmLoop (.line r :: rest) = confirmLoop rest) := by
  intro r rest
  refine ⟨?_, ?_, ?_⟩
  · intro h
    simp only [confirmLoop]
    rw [if_pos h]
  · intro h
    simp only [confirmLoop]
    rw [if_neg ?hneg, if_pos h]
    case hneg =>
      rcases h with h | h | h <;> rw [h] <;> decide
  · intro h
    simp only [confirmLoop]
    rw [if_neg (fun hc => hc.elim h.1 h.2.1),
      if_neg (fun hc => hc.elim h.2.2.1 (fun hc2 => hc2.elim h.2.2.2.1 h.2.2.2.2))]

/-- Witness for `C8_confirm_parsing` at concrete inputs. -/
theorem C8_confirm_parsing_witness :
    confirmLoop [.line "YES"] = (.ok true, []) ∧
    confirmLoop [.line "No"] = (.ok false, []) ∧
    confirmLoop [.line "maybe", .line "y"] = confirmLoop [.line "y"] :=
  ⟨(C8_confirm_parsing "YES" []).1 (by decide),
   (C8_confirm_parsing "No" []).2.1 (by decide),
   (C8_confirm_parsing "maybe" [.line "y"]).2.2 (by decide)⟩

/-! ### Configuration model -/

/-- The four deployable components. -/
inductive Comp
  | orchestrator
  | agw
  | fgw
  | nms
deriving DecidableEq, Repr

/-- The `orchestrator` sub-dictionary of `self.config`.  Every field is
optional because a configuration loaded from a file may omit any key; the
questionnaire populates all of them. -/
structure OrcCfg where
  ns : Option String
  storageCls : Option String
  dbHost : Option String
  dbPort : Option String
  dbUser : Option String
  dbPassword : Option String
  dbName : Option String
  tlsCertPath : Option String
  tlsKeyPath : Option String
deriving DecidableEq, Repr

/-- The `agw` sub-dictionary of `self.config`. -/
structure AgwCfg where
  interface : Option String
  ipAddress : Option String
  mcc : Option String
  mnc : Option String
  tac : Option String
  s1apIp : Option String
  s1apPort : Option String
deriving DecidableEq, Repr

/-- The `fgw` sub-dictionary of `self.config`. -/
structure FgwCfg where
  federationId : Option String
  servedNetworkIds : Option (List String)
  diameterHost : Option String
  diameterRealm : Option String
  diameterPort : Option String
deriving DecidableEq, Repr

/-- Embeds `self.config`: the single mutable configuration dictionary.  A `none`
field models an absent key (so reading it raises `KeyError`). -/
structure Config where
  components : Option (List Comp)
  domain : Option String
  adminEmail : Option String
  networkExternalIp : Option String
  orchestrator : Option OrcCfg
  agw : Option AgwCfg
  fgw : Option FgwCfg
deriving DecidableEq, Repr

/-- The empty dictionary `self.config = {}` set up in `__init__`. -/
def emptyConfig : Config :=
  { components := none, domain := none, adminEmail := none
    networkExternalIp := none, orchestrator := none, agw := none, fgw := none }

/-- Dictionary read `d[k]`: `KeyError` when the key is absent. -/
def req {α : Type} (o : Option α) (k : String) : Except Err α :=
  match o with
  | some v => Except.ok v
  | none => Except.error (Err.keyErr k)

theorem req_some {α : Type} (v : α) (k : String) : req (some v) k = Except.ok v := rfl

theorem req_none {α : Type} (k : String) :
    req (none : Option α) k = Except.error (Err.keyErr k) := rfl

/-- Python `repr` of a list of strings, as interpolated by the FGW template
(`served_network_ids: {self.config['fgw']['served_network_ids']}`). -/
def pyListRepr (xs : List String) : String :=
  "[" ++ String.intercalate ", " (xs.map (fun s => "\x27" ++ s ++ "\x27")) ++ "]"

/-! ### Script generators, from `deploy_magma.py` lines 461-674.

Each generator renders the script content by substituting configuration
values into the fixed template; the lookups happen in the order the
placeholders occur in the f-string, which reproduces which `KeyError`
Python raises first.  The generators write the file and run nothing. -/

/-- Embeds `generate_orchestrator_script` (lines 461-506): content of
`scripts/deploy_orchestrator.sh`. -/
def generate_orchestrator_script (cfg : Config) : Except Err String := do
  let o ← req cfg.orchestrator "orchestrator"
  let tlsCert := o.tlsCertPath.getD "/opt/magma/certs/tls.crt"
  let d ← req cfg.domain "domain"
  let ns ← req o.ns "namespace"
  let pw ← req o.dbPassword "db_password"
  let dbn ← req o.dbName "db_name"
  let dbu ← req o.dbUser "db_user"
  let sc ← req o.storageCls "storage_class"
  let dbh ← req o.dbHost "db_host"
  let dbp ← req o.dbPort "db_port"
  let tlsKey := o.tlsKeyPath.getD "/opt/magma/certs/tls.key"
  pure ("#!/bin/bash
set -e

echo \"🏗️  Deploying Magma Orchestrator...\"

# Add Magma Helm repository
helm repo add magma https://magma.github.io/magma/helm-charts
helm repo update

# Create TLS certificates if not provided
if [[ ! -f \"" ++ tlsCert ++ "\" ]]; then
    echo \"Generating TLS certificates...\"
    mkdir -p /opt/magma/certs
    openssl req -x509 -newkey rsa:4096 -keyout /opt/magma/certs/tls.key -out /opt/magma/certs/tls.crt -days 365 -nodes -subj \"/CN=" ++ d ++ "\"
fi

# Deploy PostgreSQL
helm upgrade --install postgresql oci://registry-1.docker.io/bitnamicharts/postgresql \\
    --namespace " ++ ns ++ " \\
    --set auth.postgresPassword=" ++ pw ++ " \\
    --set auth.database=" ++ dbn ++ " \\
    --set auth.username=" ++ dbu ++ " \\
    --set primary.persistence.storageClass=" ++ sc ++ "

# Wait for PostgreSQL to be ready
kubectl wait --for=condition=ready pod -l app.kubernetes.io/name=postgresql -n " ++ ns ++ " --timeout=300s

# Deploy Orchestrator
helm upgrade --install orc8r magma/orc8r \\
    --namespace " ++ ns ++ " \\
    --set global.domain=" ++ d ++ " \\
    --set postgresql.host=" ++ dbh ++ " \\
    --set postgresql.port=" ++ dbp ++ " \\
    --set postgresql.user=" ++ dbu ++ " \\
    --set postgresql.password=" ++ pw ++ " \\
    --set postgresql.database=" ++ dbn ++ " \\
    --set-file tls.crt=" ++ tlsCert ++ " \\
    --set-file tls.key=" ++ tlsKey ++ "

echo \"✅ Orchestrator deployment completed\"
")

/-- Embeds `generate_agw_script` (lines 508-585): content of `scripts/deploy_agw.sh`.
The doubled braces `{{}}` of the Python template render as literal braces. -/
def generate_agw_script (cfg : Config) : Except Err String := do
  let a ← req cfg.agw "agw"
  let mcc ← req a.mcc "mcc"
  let mnc ← req a.mnc "mnc"
  let tac ← req a.tac "tac"
  let s1ip ← req a.s1apIp "s1ap_ip"
  let s1p ← req a.s1apPort "s1ap_port"
  let ip ← req a.ipAddress "ip_address"
  pure ("#!/bin/bash
set -e

echo \"📡 Deploying Access Gateway...\"

# Clone Magma repository
if [[ ! -d \"magma\" ]]; then
    git clone https://github.com/magma/magma.git
fi

cd magma

# Build AGW
cd lte/gateway
make build

# Configure AGW
mkdir -p /etc/magma
cat > /etc/magma/gateway.mconfig << EOF
---
magmad_config:
  checkin_interval: 60
  checkin_timeout: 30
  autoupgrade_enabled: false
  autoupgrade_poll_interval: 300
  package_version: \"0.0.0-0\"
  images: []
  tier: \"default\"
  feature_flags: \x7b\x7d
  dynamic_services: []

mconfig:
  mobility_config:
    ip_pool: \"192.168.128.0/24\"
    static_ip_enabled: false
    multi_apn_ip_alloc: false
    nat_enabled: true
    enable_static_ip_assignments: false
    
  mme_config:
    mcc: \"" ++ mcc ++ "\"
    mnc: \"" ++ mnc ++ "\"
    tac: " ++ tac ++ "
    mme_code: 1
    mme_gid: 1
    enable_dns_caching: false
    non_eps_service_control: 0
    csfb_mcc: \"" ++ mcc ++ "\"
    csfb_mnc: \"" ++ mnc ++ "\"
    lac: 1
    s1ap_ip: \"" ++ s1ip ++ "\"
    s1ap_port: " ++ s1p ++ "
    
  spgw_config:
    enable_nat: true
    gtpu_endpoint: \"" ++ ip ++ "\"
    
  enodebd_config:
    earfcndl: 44490
    subframe_assignment: 2
    special_subframe_pattern: 7
    pci: 260
    plmn_ids:
      - mcc: \"" ++ mcc ++ "\"
        mnc: \"" ++ mnc ++ "\"
EOF

# Start AGW services
sudo systemctl enable magma@*
sudo systemctl start magma@*

echo \"✅ Access Gateway deployment completed\"
")

/-- Embeds `generate_fgw_script` (lines 587-649): content of `scripts/deploy_fgw.sh`. -/
def generate_fgw_script (cfg : Config) : Except Err String := do
  let f ← req cfg.fgw "fgw"
  let fid ← req f.federationId "federation_id"
  let sni ← req f.servedNetworkIds "served_network_ids"
  let dh ← req f.diameterHost "diameter_host"
  let dr ← req f.diameterRealm "diameter_realm"
  let dp ← req f.diameterPort "diameter_port"
  pure ("#!/bin/bash
set -e

echo \"🔗 Deploying Federated Gateway...\"

# Clone Magma repository
if [[ ! -d \"magma\" ]]; then
    git clone https://github.com/magma/magma.git
fi

cd magma

# Build FGW
cd feg/gateway
make build

# Configure FGW
mkdir -p /etc/magma
cat > /etc/magma/feg_gateway.mconfig << EOF
---
magmad_config:
  checkin_interval: 60
  checkin_timeout: 30
  autoupgrade_enabled: false
  autoupgrade_poll_interval: 300
  package_version: \"0.0.0-0\"
  images: []
  tier: \"default\"
  feature_flags: \x7b\x7d
  dynamic_services: []

mconfig:
  federation_config:
    federation_id: \"" ++ fid ++ "\"
    served_network_ids: " ++ pyListRepr sni ++ "
    
  diameter_config:
    host: \"" ++ dh ++ "\"
    realm: \"" ++ dr ++ "\"
    port: " ++ dp ++ "
    
  health_config:
    health_service_enabled: true
    update_interval_secs: 10
    cloud_disable_period_secs: 10
    local_disable_period_secs: 1
    
  session_proxy_config:
    request_timeout: 30
    endpoint_timeout: 30
EOF

# Start FGW services
sudo systemctl enable magma@*
sudo systemctl start magma@*

echo \"✅ Federated Gateway deployment completed\"
")

/-- Embeds `generate_nms_script` (lines 651-674): content of `scripts/deploy_nms.sh`.
Its template reads `self.config['orchestrator']['namespace']` first, so a
configuration without an `orchestrator` sub-record raises
`KeyError('orchestrator')` before anything is written. -/
def generate_nms_script (cfg : Config) : Except Err String := do
  let o ← req cfg.orchestrator "orchestrator"
  let ns ← req o.ns "namespace"
  let d ← req cfg.domain "domain"
  let em ← req cfg.adminEmail "admin_email"
  pure ("#!/bin/bash
set -e

echo \"💻 Deploying Network Management System...\"

# Add Magma Helm repository
helm repo add magma https://magma.github.io/magma/helm-charts
helm repo update

# Deploy NMS
helm upgrade --install nms magma/nms \\
    --namespace " ++ ns ++ " \\
    --set global.domain=" ++ d ++ " \\
    --set nms.admin.email=" ++ em ++ " \\
    --set nms.host=" ++ d ++ " \\
    --set nms.port=8080

echo \"✅ Network Management System deployment completed\"
")

/-- The fixed per-component script filename in the scripts directory. -/
def scriptPath : Comp → String
  | .orchestrator => "scripts/deploy_orchestrator.sh"
  | .agw => "scripts/deploy_agw.sh"
  | .fgw => "scripts/deploy_fgw.sh"
  | .nms => "scripts/deploy_nms.sh"

/-- Dispatch to the component's generator, as `deploy_components` does. -/
def generate_script : Comp → Config → Except Err String
  | .orchestrator => generate_orchestrator_script
  | .agw => generate_agw_script
  | .fgw => generate_fgw_script
  | .nms => generate_nms_script

/-- Spec-side definition (for claim C3, following the spec's words): the
required configuration fields a component's template references.  The two TLS
paths are read with `.get(..., default)` and are therefore not required. -/
def requiredPresent : Comp → Config → Bool
  | .orchestrator, cfg =>
    match cfg.orchestrator with
    | none => false
    | some o =>
      cfg.domain.isSome && o.ns.isSome && o.dbPassword.isSome && o.dbName.isSome &&
        o.dbUser.isSome && o.storageCls.isSome && o.dbHost.isSome && o.dbPort.isSome
  | .agw, cfg =>
    match cfg.agw with
    | none => false
    | some a =>
      a.mcc.isSome && a.mnc.isSome && a.tac.isSome && a.s1apIp.isSome &&
        a.s1apPort.isSome && a.ipAddress.isSome
  | .fgw, cfg =>
    match cfg.fgw with
    | none => false
    | some f =>
      f.federationId.isSome && f.servedNetworkIds.isSome && f.diameterHost.isSome &&
        f.diameterRealm.isSome && f.diameterPort.isSome
  | .nms, cfg =>
    match cfg.orchestrator with
    | none => false
    | some o => o.ns.isSome && cfg.domain.isSome && cfg.adminEmail.isSome

theorem ebind_ok {α β : Type} (a : α) (f : α → Except Err β) :
    (Except.ok a >>= f) = f a := rfl

theorem ebind_err {α β : Type} (e : Err) (f : α → Except Err β) :
    (Except.error e >>= f : Except Err β) = Except.error e := rfl

theorem emap_ok {α β : Type} (a : α) (f : α → β) :
    (f <$> (Except.ok a : Except Err α)) = Except.ok (f a) := rfl

theorem emap_err {α β : Type} (e : Err) (f : α → β) :
    (f <$> (Except.error e : Except Err α) : Except Err β) = Except.error e := rfl

/-- Script generation succeeds exactly when every required field is present,
and an absent required field surfaces as a `KeyError`, never silently. -/
theorem generate_script_charact (c : Comp) (cfg : Config) :
    (requiredPresent c cfg = true → ∃ s, generate_script c cfg = Except.ok s) ∧
    (requiredPresent c cfg = false → ∃ k, generate_script c cfg = Except.error (Err.keyErr k)) := by
  cases c
  case orchestrator =>
    cases ho : cfg.orchestrator with
    | none =>
      refine ⟨fun h => ?_, fun _ => ⟨"orchestrator", ?_⟩⟩
      · simp [requiredPresent, ho] at h
      · simp [generate_script, generate_orchestrator_script, ho, req, ebind_err, emap_err]
    | some o =>
      cases hd : cfg.domain with
      | none =>
        refine ⟨fun h => ?_, fun _ => ⟨"domain", ?_⟩⟩
        · simp [requiredPresent, ho, hd] at h
        · simp [generate_script, generate_orchestrator_script, ho, hd, req,
            ebind_ok, ebind_err, emap_ok, emap_err]
      | some d =>
        cases hns : o.ns with
        | none =>
          refine ⟨fun h => ?_, fun _ => ⟨"namespace", ?_⟩⟩
          · simp [requiredPresent, ho, hd, hns] at h
          · simp [generate_script, generate_orchestrator_script, ho, hd, hns, req,
              ebind_ok, ebind_err, emap_ok, emap_err]
        | some ns =>
          cases hpw : o.dbPassword with
          | none =>
            refine ⟨fun h => ?_, fun _ => ⟨"db_password", ?_⟩⟩
            · simp [requiredPresent, ho, hd, hns, hpw] at h
            · simp [generate_script, generate_orchestrator_script, ho, hd, hns, hpw,
                req, ebind_ok, ebind_err, emap_ok, emap_err]
          | some pw =>
            cases hdbn : o.dbName with
            | none =>
              refine ⟨fun h => ?_, fun _ => ⟨"db_name", ?_⟩⟩
              · simp [requiredPresent, ho, hd, hns, hpw, hdbn] at h
              · simp [generate_script, generate_orchestrator_script, ho, hd, hns,
                  hpw, hdbn, req, ebind_ok, ebind_err, emap_ok, emap_err]
            | some dbn =>
              cases hdbu : o.dbUser with
              | none =>
                refine ⟨fun h => ?_, fun _ => ⟨"db_user", ?_⟩⟩
                · simp [requiredPresent, ho, hd, hns, hpw, hdbn, hdbu] at h
                · simp [generate_script, generate_orchestrator_script, ho, hd, hns,
                    hpw, hdbn, hdbu, req, ebind_ok, ebind_err, emap_ok, emap_err]
              | some dbu =>
                cases hsc : o.storageCls with
                | none =>
                  refine ⟨fun h => ?_, fun _ => ⟨"storage_class", ?_⟩⟩
                  · simp [requiredPresent, ho, hd, hns, hpw, hdbn, hdbu, hsc] at h
                  · simp [generate_script, generate_orchestrator_script, ho, hd, hns,
                      hpw, hdbn, hdbu, hsc, req, ebind_ok, ebind_err, emap_ok, emap_err]
                | some sc =>
                  cases hdbh : o.dbHost with
                  | none =>
                    refine ⟨fun h => ?_, fun _ => ⟨"db_host", ?_⟩⟩
                    · simp [requiredPresent, ho, hd, hns, hpw, hdbn, hdbu, hsc,
                        hdbh] at h
                    · simp [generate_script, generate_orchestrator_script, ho, hd,
                        hns, hpw, hdbn, hdbu, hsc, hdbh, req, ebind_ok, ebind_err, emap_ok, emap_err]
                  | some dbh =>
                    cases hdbp : o.dbPort with
                    | none =>
                      refine ⟨fun h => ?_, fun _ => ⟨"db_port", ?_⟩⟩
                      · simp [requiredPresent, ho, hd, hns, hpw, hdbn, hdbu, hsc,
                          hdbh, hdbp] at h
                      · simp [generate_script, generate_orchestrator_script, ho, hd,
                          hns, hpw, hdbn, hdbu, hsc, hdbh, hdbp, req, ebind_ok,
                          ebind_err, emap_ok, emap_err]
                    | some dbp =>
                      refine ⟨fun _ => ?_, fun h => ?_⟩
                      · simp only [generate_script, generate_orchestrator_script, ho, hd,
                          hns, hpw, hdbn, hdbu, hsc, hdbh, hdbp, req, ebind_ok,
                          ebind_err, emap_ok, emap_err]
                        exact ⟨_, rfl⟩
                      · simp [requiredPresent, ho, hd, hns, hpw, hdbn, hdbu, hsc,
                          hdbh, hdbp] at h
  case agw =>
    cases ha : cfg.agw with
    | none =>
      refine ⟨fun h => ?_, fun _ => ⟨"agw", ?_⟩⟩
      · simp [requiredPresent, ha] at h
      · simp [generate_script, generate_agw_script, ha, req, ebind_err, emap_err]
    | some a =>
      cases h1 : a.mcc with
      | none =>
        refine ⟨fun h => ?_, fun _ => ⟨"mcc", ?_⟩⟩
        · simp [requiredPresent, ha, h1] at h
        · simp [generate_script, generate_agw_script, ha, h1, req, ebind_ok,
            ebind_err]
      | some mcc =>
        cases h2 : a.mnc with
        | none =>
          refine ⟨fun h => ?_, fun _ => ⟨"mnc", ?_⟩⟩
          · simp [requiredPresent, ha, h1, h2] at h
          · simp [generate_script, generate_agw_script, ha, h1, h2, req, ebind_ok,
              ebind_err]
        | some mnc =>
          cases h3 : a.tac with
          | none =>
            refine ⟨fun h => ?_, fun _ => ⟨"tac", ?_⟩⟩
            · simp [requiredPresent, ha, h1, h2, h3] at h
            · simp [generate_script, generate_agw_script, ha, h1, h2, h3, req,
                ebind_ok, ebind_err, emap_ok, emap_err]
          | some tac =>
            cases h4 : a.s1apIp with
            | none =>
              refine ⟨fun h => ?_, fun _ => ⟨"s1ap_ip", ?_⟩⟩
              · simp [requiredPresent, ha, h1, h2, h3, h4] at h
              · simp [generate_script, generate_agw_script, ha, h1, h2, h3, h4, req,
                  ebind_ok, ebind_err, emap_ok, emap_err]
            | some s1ip =>
              cases h5 : a.s1apPort with
              | none =>
                refine ⟨fun h => ?_, fun _ => ⟨"s1ap_port", ?_⟩⟩
                · simp [requiredPresent, ha, h1, h2, h3, h4, h5] at h
                · simp [generate_script, generate_agw_script, ha, h1, h2, h3, h4,
                    h5, req, ebind_ok, ebind_err, emap_ok, emap_err]
              | some s1p =>
                cases h6 : a.ipAddress with
                | none =>
                  refine ⟨fun h => ?_, fun _ => ⟨"ip_address", ?_⟩⟩
                  · simp [requiredPresent, ha, h1, h2, h3, h4, h5, h6] at h
                  · simp [generate_script, generate_agw_script, ha, h1, h2, h3, h4,
                      h5, h6, req, ebind_ok, ebind_err, emap_ok, emap_err]
                | some ip =>
                  refine ⟨fun _ => ?_, fun h => ?_⟩
                  · simp only [generate_script, generate_agw_script, ha, h1, h2, h3, h4,
                      h5, h6, req, ebind_ok, ebind_err, emap_ok, emap_err]
                    exact ⟨_, rfl⟩
                  · simp [requiredPresent, ha, h1, h2, h3, h4, h5, h6] at h
  case fgw =>
    cases hf : cfg.fgw with
    | none =>
      refine ⟨fun h => ?_, fun _ => ⟨"fgw", ?_⟩⟩
      · simp [requiredPresent, hf] at h
      · simp [generate_script, generate_fgw_script, hf, req, ebind_err, emap_err]
    | some f =>
      cases h1 : f.federationId with
      | none =>
        refine ⟨fun h => ?_, fun _ => ⟨"federation_id", ?_⟩⟩
        · simp [requiredPresent, hf, h1] at h
        · simp [generate_script, generate_fgw_script, hf, h1, req, ebind_ok,
            ebind_err]
      | some fid =>
        cases h2 : f.servedNetworkIds with
        | none =>
          refine ⟨fun h => ?_, fun _ => ⟨"served_network_ids", ?_⟩⟩
          · simp [requiredPresent, hf, h1, h2] at h
          · simp [generate_script, generate_fgw_script, hf, h1, h2, req, ebind_ok,
              ebind_err]
        | some sni =>
          cases h3 : f.diameterHost with
          | none =>
            refine ⟨fun h => ?_, fun _ => ⟨"diameter_host", ?_⟩⟩
            · simp [requiredPresent, hf, h1, h2, h3] at h
            · simp [generate_script, generate_fgw_script, hf, h1, h2, h3, req,
                ebind_ok, ebind_err, emap_ok, emap_err]
          | some dh =>
            cases h4 : f.diameterRealm with
            | none =>
              refine ⟨fun h => ?_, fun _ => ⟨"diameter_realm", ?_⟩⟩
              · simp [requiredPresent, hf, h1, h2, h3, h4] at h
              · simp [generate_script, generate_fgw_script, hf, h1, h2, h3, h4, req,
                  ebind_ok, ebind_err, emap_ok, emap_err]
            | some dr =>
              cases h5 : f.diameterPort with
              | none =>
                refine ⟨fun h => ?_, fun _ => ⟨"diameter_port", ?_⟩⟩
                · simp [requiredPresent, hf, h1, h2, h3, h4, h5] at h
                · simp [generate_script, generate_fgw_script, hf, h1, h2, h3, h4,
                    h5, req, ebind_ok, ebind_err, emap_ok, emap_err]
              | some dp =>
                refine ⟨fun _ => ?_, fun h => ?_⟩
                · simp only [generate_script, generate_fgw_script, hf, h1, h2, h3, h4,
                    h5, req, ebind_ok, ebind_err, emap_ok, emap_err]
                  exact ⟨_, rfl⟩
                · simp [requiredPresent, hf, h1, h2, h3, h4, h5] at h
  case nms =>
    cases ho : cfg.orchestrator with
    | none =>
      refine ⟨fun h => ?_, fun _ => ⟨"orchestrator", ?_⟩⟩
      · simp [requiredPresent, ho] at h
      · simp [generate_script, generate_nms_script, ho, req, ebind_err, emap_err]
    | some o =>
      cases hns : o.ns with
      | none =>
        refine ⟨fun h => ?_, fun _ => ⟨"namespace", ?_⟩⟩
        · simp [requiredPresent, ho, hns] at h
        · simp [generate_script, generate_nms_script, ho, hns, req, ebind_ok,
            ebind_err]
      | some ns =>
        cases hd : cfg.domain with
        | none =>
          refine ⟨fun h => ?_, fun _ => ⟨"domain", ?_⟩⟩
          · simp [requiredPresent, ho, hns, hd] at h
          · simp [generate_script, generate_nms_script, ho, hns, hd, req, ebind_ok,
              ebind_err]
        | some d =>
          cases hem : cfg.adminEmail with
          | none =>
            refine ⟨fun h => ?_, fun _ => ⟨"admin_email", ?_⟩⟩
            · simp [requiredPresent, ho, hns, hd, hem] at h
            · simp [generate_script, generate_nms_script, ho, hns, hd, hem, req,
                ebind_ok, ebind_err, emap_ok, emap_err]
          | some em =>
            refine ⟨fun _ => ?_, fun h => ?_⟩
            · simp only [generate_script, generate_nms_script, ho, hns, hd, hem, req,
                ebind_ok, ebind_err, emap_ok, emap_err]
              exact ⟨_, rfl⟩
            · simp [requiredPresent, ho, hns, hd, hem] at h

/-- The generation half of `deploy_components`: render each selected
component's script in order, stopping at the first `KeyError`.  The
generators are pure — they return script text and execute nothing. -/
def genAll : List Comp → Config → Except Err (List (String × String))
  | [], _ => Except.ok []
  | c :: cs, cfg => do
    let s ← generate_script c cfg
    let rest ← genAll cs cfg
    pure ((scriptPath c, s) :: rest)

/-- C3: for every selected component list and configuration, generation
yields exactly one script per selected component (at that component's fixed
path) when every required field is present, and an absent required field
surfaces as a missing-key error rather than a silent omission. -/
theorem C3_generation_contract :
    (∀ (cfg : Config) (comps : List Comp),
       (∀ c ∈ comps, requiredPresent c cfg = true) →
       ∃ outs, genAll comps cfg = Except.ok outs ∧
         outs.length = comps.length ∧
         outs.map Prod.fst = comps.map scriptPath) ∧
    (∀ (cfg : Config) (c : Comp), requiredPresent c cfg = false →
       ∃ k, generate_script c cfg = Except.error (Err.keyErr k)) := by
  constructor
  · intro cfg comps h
    induction comps with
    | nil => exact ⟨[], rfl, rfl, rfl⟩
    | cons c cs ih =>
      obtain ⟨s, hs⟩ := (generate_script_charact c cfg).1 (h c (by simp))
      obtain ⟨outs, hok, hlen, hmap⟩ := ih (fun c hc => h c (by simp [hc]))
      refine ⟨(scriptPath c, s) :: outs, ?_, ?_, ?_⟩
      · simp [genAll, hs, hok, ebind_ok]
      · simp [hlen]
      · simp [hmap]
  · intro cfg c h
    exact (generate_script_charact c cfg).2 h

/-- A fully populated configuration, as the questionnaire would build it for
a full-stack selection. -/
def fullConfig : Config :=
  { components := some [.orchestrator, .agw, .fgw, .nms]
    domain := some "magma.local"
    adminEmail := some "admin@magma.local"
    networkExternalIp := some "1.2.3.4"
    orchestrator := some
      { ns := some "magma", storageCls := some "standard"
        dbHost := some "postgresql", dbPort := some "5432"
        dbUser := some "magma", dbPassword := some "secret"
        dbName := some "magma"
        tlsCertPath := some "/opt/magma/certs/tls.crt"
        tlsKeyPath := some "/opt/magma/certs/tls.key" }
    agw := some
      { interface := some "eth0", ipAddress := some "10.0.0.2"
        mcc := some "001", mnc := some "01", tac := some "1"
        s1apIp := some "10.0.0.2", s1apPort := some "36412" }
    fgw := some
      { federationId := some "fgw01"
        servedNetworkIds := some ["network1", "network2"]
        diameterHost := some "fgw.magma.local"
        diameterRealm := some "magma.local"
        diameterPort := some "3868" } }

/-- Witness for `C3_generation_contract`: the full stack generates four
scripts from a fully populated configuration, and the empty configuration
gives a missing-key error. -/
theorem C3_generation_contract_witness :
    (∃ outs, genAll [Comp.orchestrator, Comp.agw, Comp.fgw, Comp.nms] fullConfig =
        Except.ok outs ∧
      outs.length = [Comp.orchestrator, Comp.agw, Comp.fgw, Comp.nms].length ∧
      outs.map Prod.fst =
        [Comp.orchestrator, Comp.agw, Comp.fgw, Comp.nms].map scriptPath) ∧
    (∃ k, generate_script Comp.nms emptyConfig = Except.error (Err.keyErr k)) :=
  ⟨C3_generation_contract.1 fullConfig [Comp.orchestrator, Comp.agw, Comp.fgw, Comp.nms]
      (by decide),
   C3_generation_contract.2 emptyConfig Comp.nms (by decide)⟩

/-! ### Configuration file round-trip (claim C7)

Modelled from the spec: the configuration is persisted "in a structured
key/value document format" via a serialization library (`yaml.dump` /
`yaml.safe_load`) that is not part of this repository's source.  The model
below embeds that document format at the line level, for exactly the value
shapes the program produces and accepts: a top-level mapping whose values
are strings, lists of strings, or one-level sub-mappings of those. -/

/-- A scalar or list value in the configuration document. -/
inductive YLeaf
  | str (s : String)
  | vlist (xs : List String)
deriving DecidableEq, Repr

/-- A top-level value: a leaf or a one-level sub-mapping. -/
inductive YEntry
  | leaf (v : YLeaf)
  | sub (m : List (String × YLeaf))
deriving DecidableEq, Repr

/-- A configuration document: the top-level key/value mapping. -/
abbrev YDoc := List (String × YEntry)

/-- One physical line of the persisted document. -/
inductive Line
  | kv (ind : Nat) (k v : String)
  | khdr (ind : Nat) (k : String)
  | item (ind : Nat) (v : String)
  | kvEmptyList (ind : Nat) (k : String)
deriving DecidableEq, Repr

/-- Indentation level of a line. -/
def indentOf : Line → Nat
  | .kv i _ _ => i
  | .khdr i _ => i
  | .item i _ => i
  | .kvEmptyList i _ => i

/-- Serialize one leaf under a key at an indentation level. -/
def serLeaf (ind : Nat) (k : String) : YLeaf → List Line
  | .str v => [.kv ind k v]
  | .vlist [] => [.kvEmptyList ind k]
  | .vlist (x :: xs) => .khdr ind k :: (x :: xs).map (Line.item (ind + 1))

/-- Serialize a sub-mapping (its leaves at indentation 1). -/
def serSub (m : List (String × YLeaf)) : List Line :=
  m.flatMap (fun p => serLeaf 1 p.1 p.2)

/-- Serialize one top-level entry. -/
def serEntry (k : String) : YEntry → List Line
  | .leaf v => serLeaf 0 k v
  | .sub m => .khdr 0 k :: serSub m

/-- Modelled from the spec: `yaml.dump` (PyYAML, not part of this
repository's source) serializing the whole document in the spec's
"structured key/value document format". -/
def serDoc (d : YDoc) : List Line :=
  d.flatMap (fun p => serEntry p.1 p.2)

/-- Value carried by a list-item line. -/
def itemVal : Line → String
  | .item _ v => v
  | _ => ""

/-- Is this line a list item at indentation `n`? -/
def isItem (n : Nat) (l : Line) : Bool :=
  match l with
  | .item i _ => i = n
  | _ => false

/-- Is this line indented (part of the current block)? -/
def isIndent1 (l : Line) : Bool := 1 ≤ indentOf l

theorem dropWhile_length_le {α : Type} (p : α → Bool) (l : List α) :
    (l.dropWhile p).length ≤ l.length := by
  induction l with
  | nil => simp
  | cons a l ih =>
    rw [List.dropWhile_cons]
    split
    · simp only [List.length_cons]; omega
    · simp

/-- Modelled from the spec: the sub-mapping part of `yaml.safe_load` — a
run of indentation-1 leaves. -/
def parseSubList : List Line → Option (List (String × YLeaf))
  | [] => some []
  | .kv 1 k v :: rest => (parseSubList rest).map (fun m => (k, YLeaf.str v) :: m)
  | .kvEmptyList 1 k :: rest =>
    (parseSubList rest).map (fun m => (k, YLeaf.vlist []) :: m)
  | .khdr 1 k :: rest =>
    let items := rest.takeWhile (isItem 2)
    if items.isEmpty then none
    else
      (parseSubList (rest.dropWhile (isItem 2))).map
        (fun m => (k, YLeaf.vlist (items.map itemVal)) :: m)
  | _ => none
termination_by ls => ls.length
decreasing_by
  all_goals simp only [List.length_cons]
  · omega
  · omega
  · have := dropWhile_length_le (isItem 2) rest
    omega

/-- Classify a block body: empty (an empty sub-mapping), a list of items, or
a sub-mapping of leaves. -/
def parseBlock (ls : List Line) : Option YEntry :=
  match ls with
  | [] => some (YEntry.sub [])
  | _ =>
    if ls.all (isItem 1) then some (YEntry.leaf (YLeaf.vlist (ls.map itemVal)))
    else (parseSubList ls).map YEntry.sub

/-- Modelled from the spec: `yaml.safe_load` (PyYAML, not part of this
repository's source) parsing the whole document. -/
def parseTop : List Line → Option YDoc
  | [] => some []
  | .kv 0 k v :: rest => (parseTop rest).map (fun d => (k, YEntry.leaf (YLeaf.str v)) :: d)
  | .kvEmptyList 0 k :: rest =>
    (parseTop rest).map (fun d => (k, YEntry.leaf (YLeaf.vlist [])) :: d)
  | .khdr 0 k :: rest =>
    match parseBlock (rest.takeWhile isIndent1), parseTop (rest.dropWhile isIndent1) with
    | some e, some d => some ((k, e) :: d)
    | _, _ => none
  | _ => none
termination_by ls => ls.length
decreasing_by
  all_goals simp only [List.length_cons]
  · omega
  · omega
  · have := dropWhile_length_le isIndent1 rest
    omega

theorem takeWhile_append_all {α : Type} (p : α → Bool) (xs ys : List α)
    (h : ∀ x ∈ xs, p x) : (xs ++ ys).takeWhile p = xs ++ ys.takeWhile p := by
  induction xs with
  | nil => simp
  | cons a l ih => simp_all [List.takeWhile_cons]

theorem dropWhile_append_all {α : Type} (p : α → Bool) (xs ys : List α)
    (h : ∀ x ∈ xs, p x) : (xs ++ ys).dropWhile p = ys.dropWhile p := by
  induction xs with
  | nil => simp
  | cons a l ih => simp_all [List.dropWhile_cons]

theorem serLeaf_ind1 (k : String) (v : YLeaf) :
    ∀ l ∈ serLeaf 1 k v, isIndent1 l = true := by
  cases v with
  | str s =>
    intro l hl
    simp [serLeaf] at hl
    subst hl
    rfl
  | vlist xs =>
    cases xs with
    | nil =>
      intro l hl
      simp [serLeaf] at hl
      subst hl
      rfl
    | cons x xs' =>
      intro l hl
      simp only [serLeaf] at hl
      rcases List.mem_cons.mp hl with h | h
      · subst h; rfl
      · rcases List.mem_map.mp h with ⟨a, _, h2⟩
        subst h2
        rfl

theorem serSub_ind1 (m : List (String × YLeaf)) :
    ∀ l ∈ serSub m, isIndent1 l = true := by
  induction m with
  | nil => simp [serSub]
  | cons p m' ih =>
    intro l hl
    rw [serSub, List.flatMap_cons] at hl
    rcases List.mem_append.mp hl with h | h
    · exact serLeaf_ind1 p.1 p.2 l h
    · exact ih l h

theorem serSub_item2 (m : List (String × YLeaf)) :
    (serSub m).takeWhile (isItem 2) = [] ∧
    (serSub m).dropWhile (isItem 2) = serSub m := by
  cases m with
  | nil => simp [serSub]
  | cons p m' =>
    obtain ⟨k, v⟩ := p
    cases v with
    | str s =>
      constructor <;>
        simp [serSub, List.flatMap_cons, serLeaf, List.takeWhile_cons,
          List.dropWhile_cons, isItem]
    | vlist xs =>
      cases xs with
      | nil =>
        constructor <;>
          simp [serSub, List.flatMap_cons, serLeaf, List.takeWhile_cons,
            List.dropWhile_cons, isItem]
      | cons x xs' =>
        constructor <;>
          simp [serSub, List.flatMap_cons, serLeaf, List.takeWhile_cons,
            List.dropWhile_cons, isItem]

theorem serDoc_ind0 (d : YDoc) :
    (serDoc d).takeWhile isIndent1 = [] ∧
    (serDoc d).dropWhile isIndent1 = serDoc d := by
  cases d with
  | nil => simp [serDoc]
  | cons p d' =>
    obtain ⟨k, e⟩ := p
    cases e with
    | leaf v =>
      cases v with
      | str s =>
        constructor <;>
          simp [serDoc, List.flatMap_cons, serEntry, serLeaf, List.takeWhile_cons,
            List.dropWhile_cons, isIndent1, indentOf]
      | vlist xs =>
        cases xs with
        | nil =>
          constructor <;>
            simp [serDoc, List.flatMap_cons, serEntry, serLeaf, List.takeWhile_cons,
              List.dropWhile_cons, isIndent1, indentOf]
        | cons x xs' =>
          constructor <;>
            simp [serDoc, List.flatMap_cons, serEntry, serLeaf, List.takeWhile_cons,
              List.dropWhile_cons, isIndent1, indentOf]
    | sub m =>
      constructor <;>
        simp [serDoc, List.flatMap_cons, serEntry, List.takeWhile_cons,
          List.dropWhile_cons, isIndent1, indentOf]

theorem parseSubList_ser (m : List (String × YLeaf)) :
    parseSubList (serSub m) = some m := by
  induction m with
  | nil => simp [serSub, parseSubList]
  | cons p m' ih =>
    obtain ⟨k, v⟩ := p
    cases v with
    | str s =>
      have hser : serSub ((k, YLeaf.str s) :: m') = Line.kv 1 k s :: serSub m' := by
        simp [serSub, List.flatMap_cons, serLeaf]
      rw [hser, parseSubList, ih]
      rfl
    | vlist xs =>
      cases xs with
      | nil =>
        have hser : serSub ((k, YLeaf.vlist []) :: m') =
            Line.kvEmptyList 1 k :: serSub m' := by
          simp [serSub, List.flatMap_cons, serLeaf]
        rw [hser, parseSubList, ih]
        rfl
      | cons x xs' =>
        have hser : serSub ((k, YLeaf.vlist (x :: xs')) :: m') =
            Line.khdr 1 k :: ((x :: xs').map (Line.item 2) ++ serSub m') := by
          simp [serSub, List.flatMap_cons, serLeaf]
        have hall : ∀ l ∈ (x :: xs').map (Line.item 2), isItem 2 l = true := by
          intro l hl
          rcases List.mem_map.mp hl with ⟨a, _, h⟩
          subst h
          rfl
        rw [hser, parseSubList]
        simp only [takeWhile_append_all _ _ _ hall, dropWhile_append_all _ _ _ hall,
          (serSub_item2 m').1, (serSub_item2 m').2, List.append_nil]
        rw [ih]
        simp [itemVal, List.map_map, Function.comp_def]

theorem serSub_cons_shape (q : String × YLeaf) (m'' : List (String × YLeaf)) :
    ∃ l ls, serSub (q :: m'') = l :: ls ∧ isItem 1 l = false := by
  obtain ⟨k1, v1⟩ := q
  cases v1 with
  | str s =>
    exact ⟨Line.kv 1 k1 s, serSub m'', by simp [serSub, List.flatMap_cons, serLeaf], rfl⟩
  | vlist xs =>
    cases xs with
    | nil =>
      exact ⟨Line.kvEmptyList 1 k1, serSub m'',
        by simp [serSub, List.flatMap_cons, serLeaf], rfl⟩
    | cons x xs' =>
      exact ⟨Line.khdr 1 k1, (x :: xs').map (Line.item 2) ++ serSub m'',
        by simp [serSub, List.flatMap_cons, serLeaf], rfl⟩

theorem parseTop_ser (d : YDoc) : parseTop (serDoc d) = some d := by
  induction d with
  | nil => simp [serDoc, parseTop]
  | cons p d' ih =>
    obtain ⟨k, e⟩ := p
    cases e with
    | leaf v =>
      cases v with
      | str s =>
        have hser : serDoc ((k, YEntry.leaf (YLeaf.str s)) :: d') =
            Line.kv 0 k s :: serDoc d' := by
          simp [serDoc, List.flatMap_cons, serEntry, serLeaf]
        rw [hser]
        simp only [parseTop]
        rw [ih]
        rfl
      | vlist xs =>
        cases xs with
        | nil =>
          have hser : serDoc ((k, YEntry.leaf (YLeaf.vlist [])) :: d') =
              Line.kvEmptyList 0 k :: serDoc d' := by
            simp [serDoc, List.flatMap_cons, serEntry, serLeaf]
          rw [hser]
          simp only [parseTop]
          rw [ih]
          rfl
        | cons x xs' =>
          have hser : serDoc ((k, YEntry.leaf (YLeaf.vlist (x :: xs'))) :: d') =
              Line.khdr 0 k :: ((x :: xs').map (Line.item 1) ++ serDoc d') := by
            simp [serDoc, List.flatMap_cons, serEntry, serLeaf]
          have hall : ∀ l ∈ (x :: xs').map (Line.item 1), isIndent1 l = true := by
            intro l hl
            rcases List.mem_map.mp hl with ⟨a, _, h2⟩
            subst h2
            rfl
          have hblock : parseBlock ((x :: xs').map (Line.item 1)) =
              some (YEntry.leaf (YLeaf.vlist (x :: xs'))) := by
            have hallitem : ((x :: xs').map (Line.item 1)).all (isItem 1) = true := by
              rw [List.all_eq_true]
              intro l hl
              rcases List.mem_map.mp hl with ⟨a, _, h2⟩
              subst h2
              rfl
            simp [parseBlock, hallitem, itemVal, isItem, List.map_map, Function.comp_def]
          rw [hser]
          simp only [parseTop]
          rw [takeWhile_append_all _ _ _ hall, dropWhile_append_all _ _ _ hall,
            (serDoc_ind0 d').1, (serDoc_ind0 d').2, List.append_nil, hblock, ih]
    | sub m =>
      have hser : serDoc ((k, YEntry.sub m) :: d') =
          Line.khdr 0 k :: (serSub m ++ serDoc d') := by
        simp [serDoc, List.flatMap_cons, serEntry]
      have hall : ∀ l ∈ serSub m, isIndent1 l = true := serSub_ind1 m
      have hblock : parseBlock (serSub m) = some (YEntry.sub m) := by
        cases m with
        | nil => simp [serSub, parseBlock]
        | cons q m'' =>
          obtain ⟨l, ls, hc, hni⟩ := serSub_cons_shape q m''
          rw [hc]
          simp only [parseBlock, List.all_cons, hni, Bool.false_and]
          rw [← hc, parseSubList_ser]
          rfl
      rw [hser]
      simp only [parseTop]
      rw [takeWhile_append_all _ _ _ hall, dropWhile_append_all _ _ _ hall,
        (serDoc_ind0 d').1, (serDoc_ind0 d').2, List.append_nil, hblock, ih]

/-- C7: a configuration document that parses successfully, when re-serialized
without modification, parses back to exactly the same keys and values. -/
theorem C7_config_roundtrip (lines : List Line) (d : YDoc)
    (_h : parseTop lines = some d) : parseTop (serDoc d) = some d :=
  parseTop_ser d

/-- Witness for `C7_config_roundtrip`: a concrete document in the shape the
program writes (components list, scalars, and a sub-mapping). -/
theorem C7_config_roundtrip_witness :
    parseTop
      [Line.kv 0 "admin_email" "admin@magma.local",
       Line.khdr 0 "components", Line.item 1 "orchestrator", Line.item 1 "nms",
       Line.kv 0 "domain" "magma.local",
       Line.khdr 0 "network", Line.kv 1 "external_ip" "1.2.3.4"] =
      some [("admin_email", YEntry.leaf (YLeaf.str "admin@magma.local")),
        ("components", YEntry.leaf (YLeaf.vlist ["orchestrator", "nms"])),
        ("domain", YEntry.leaf (YLeaf.str "magma.local")),
        ("network", YEntry.sub [("external_ip", YLeaf.str "1.2.3.4")])] ∧
    parseTop (serDoc [("admin_email", YEntry.leaf (YLeaf.str "admin@magma.local")),
        ("components", YEntry.leaf (YLeaf.vlist ["orchestrator", "nms"])),
        ("domain", YEntry.leaf (YLeaf.str "magma.local")),
        ("network", YEntry.sub [("external_ip", YLeaf.str "1.2.3.4")])]) =
      some [("admin_email", YEntry.leaf (YLeaf.str "admin@magma.local")),
        ("components", YEntry.leaf (YLeaf.vlist ["orchestrator", "nms"])),
        ("domain", YEntry.leaf (YLeaf.str "magma.local")),
        ("network", YEntry.sub [("external_ip", YLeaf.str "1.2.3.4")])] := by
  have h1 : parseTop
      [Line.kv 0 "admin_email" "admin@magma.local",
       Line.khdr 0 "components", Line.item 1 "orchestrator", Line.item 1 "nms",
       Line.kv 0 "domain" "magma.local",
       Line.khdr 0 "network", Line.kv 1 "external_ip" "1.2.3.4"] =
      some [("admin_email", YEntry.leaf (YLeaf.str "admin@magma.local")),
        ("components", YEntry.leaf (YLeaf.vlist ["orchestrator", "nms"])),
        ("domain", YEntry.leaf (YLeaf.str "magma.local")),
        ("network", YEntry.sub [("external_ip", YLeaf.str "1.2.3.4")])] := by
    simp [parseTop, parseBlock, parseSubList, isIndent1, indentOf, isItem, itemVal]
  exact ⟨h1, C7_config_roundtrip _ _ h1⟩

/-! ### The interactive pipeline

`RdM` models the interactive prompting functions, which touch only the
stream of input events; `Step` models the whole run, whose state also
carries the files written and the external commands issued. -/

/-- A computation reading the input stream. -/
def RdM (α : Type) : Type := List Inp → (Except Err α) × List Inp

instance : Monad RdM where
  pure a := fun ins => (Except.ok a, ins)
  bind x f := fun ins =>
    match x ins with
    | (Except.ok a, ins') => f a ins'
    | (Except.error e, ins') => (Except.error e, ins')

theorem rd_bind_apply {α β : Type} (x : RdM α) (f : α → RdM β) (ins : List Inp) :
    (x >>= f) ins =
      match x ins with
      | (Except.ok a, ins') => f a ins'
      | (Except.error e, ins') => (Except.error e, ins') := rfl

theorem rd_pure_apply {α : Type} (a : α) (ins : List Inp) :
    (pure a : RdM α) ins = (Except.ok a, ins) := rfl

theorem rd_bind_ok {α β : Type} (x : RdM α) (f : α → RdM β) (ins ins' : List Inp)
    (a : α) (h : x ins = (Except.ok a, ins')) : (x >>= f) ins = f a ins' := by
  rw [rd_bind_apply, h]

theorem rd_bind_err {α β : Type} (x : RdM α) (f : α → RdM β) (ins ins' : List Inp)
    (e : Err) (h : x ins = (Except.error e, ins')) :
    (x >>= f) ins = (Except.error e, ins') := by
  rw [rd_bind_apply, h]

theorem rd_bind_ok_iff {α β : Type} (x : RdM α) (f : α → RdM β) (ins ins'' : List Inp)
    (b : β) :
    (x >>= f) ins = (Except.ok b, ins'') ↔
      ∃ a ins', x ins = (Except.ok a, ins') ∧ f a ins' = (Except.ok b, ins'') := by
  constructor
  · intro h
    rcases hx : x ins with ⟨r, ins1⟩
    cases r with
    | ok a =>
      refine ⟨a, ins1, rfl, ?_⟩
      rw [rd_bind_apply, hx] at h
      exact h
    | error e =>
      rw [rd_bind_apply, hx] at h
      simp at h
  · rintro ⟨a, ins1, h1, h2⟩
    rw [rd_bind_apply, h1]
    exact h2

/-- Dictionary read inside the prompting layer. -/
def reqRd {α : Type} (o : Option α) (k : String) : RdM α :=
  fun ins => (req o k, ins)

/-- Embeds `get_user_input` (lines 86-102) with a (non-empty) default: reads one
line; a non-empty stripped response is returned, otherwise the default. -/
def getInputD (d : String) : RdM String
  | [] => (Except.error Err.eofErr, [])
  | .intr :: rest => (Except.error Err.interrupted, rest)
  | .line r :: rest =>
    let resp := pyStrip r
    (Except.ok (if resp = "" then d else resp), rest)

/-- Embeds `get_user_input` (required, no default) fused with the caller's
re-prompt-until-valid loop: skip blank input, return the first stripped
response the validator accepts, re-prompt otherwise. -/
def promptValidated (valid : String → Bool) : RdM String
  | [] => (Except.error Err.eofErr, [])
  | .intr :: rest => (Except.error Err.interrupted, rest)
  | .line r :: rest =>
    let resp := pyStrip r
    if resp = "" then promptValidated valid rest
    else if valid resp then (Except.ok resp, rest)
    else promptValidated valid rest

/-- Embeds `get_password` (lines 104-106): `getpass` returns the raw line. -/
def get_password : RdM String
  | [] => (Except.error Err.eofErr, [])
  | .intr :: rest => (Except.error Err.interrupted, rest)
  | .line r :: rest => (Except.ok r, rest)

/-- Modelled from the spec: `validate_ip_address` (lines 108-114) delegates
to Python's standard-library `ipaddress.ip_address`, which is not part of
this repository; the spec asks only that the string "parse as IPv4 or IPv6
per standard numeric-and-delimiter grammar".  IPv4 is modelled exactly
(four dot-separated decimal octets 0-255, no leading zeros); IPv6 is a
coarse hex-groups-and-colons check.  No claim depends on its boundary. -/
def validate_ip_address (s : String) : Bool :=
  let cs := s.toList
  if cs.contains '.' && !(cs.contains ':') then
    let parts := pySplit '.' cs
    parts.length = 4 && parts.all (fun p =>
      !(p.isEmpty) && p.all Char.isDigit && p.length ≤ 3 &&
      (p.headD '0' ≠ '0' || p.length = 1) &&
      p.foldl (fun n c => 10 * n + (c.toNat - 48)) 0 ≤ 255)
  else if cs.contains ':' then
    let gs := pySplit ':' cs
    2 ≤ gs.length && gs.length ≤ 8 &&
      gs.all (fun g => g.length ≤ 4 && g.all (fun c =>
        c.isDigit || ('a' ≤ c && c ≤ 'f') || ('A' ≤ c && c ≤ 'F'))) &&
      gs.countP (fun g => g.isEmpty) ≤ 3
  else false

/-- Component-selection menu of `collect_deployment_config` (lines 273-296):
one prompt with default `"1"`; choices 1-4 store a fixed list, choice 5 asks
four confirmations; ANY OTHER choice stores nothing. -/
def selectComponentsR (cfg : Config) : RdM Config := do
  let choice ← getInputD "1"
  if choice = "1" then
    pure { cfg with components := some [.orchestrator, .agw, .fgw, .nms] }
  else if choice = "2" then
    pure { cfg with components := some [.orchestrator] }
  else if choice = "3" then
    pure { cfg with components := some [.agw] }
  else if choice = "4" then
    pure { cfg with components := some [.fgw] }
  else if choice = "5" then do
    let b1 ← confirmLoop
    let b2 ← confirmLoop
    let b3 ← confirmLoop
    let b4 ← confirmLoop
    pure { cfg with components := some (
      (if b1 then [Comp.orchestrator] else []) ++ (if b2 then [Comp.agw] else []) ++
        (if b3 then [Comp.fgw] else []) ++ (if b4 then [Comp.nms] else [])) }
  else
    pure cfg

/-- General configuration of `collect_deployment_config` (lines 298-311):
domain (default `magma.local`), admin email validated by `validate_email`,
external IP validated by `validate_ip_address`. -/
def collectGeneralR (cfg : Config) : RdM Config := do
  let d ← getInputD "magma.local"
  let em ← promptValidated validateEmailS
  let ip ← promptValidated validate_ip_address
  pure { cfg with
    domain := some d
    adminEmail := some em
    networkExternalIp := some ip }

/-- Embeds `collect_orchestrator_config` (lines 330-348). -/
def collect_orchestrator_config (cfg : Config) : RdM Config := do
  let ns ← getInputD "magma"
  let sc ← getInputD "standard"
  let dbh ← getInputD "postgresql"
  let dbp ← getInputD "5432"
  let dbu ← getInputD "magma"
  let pw ← get_password
  let dbn ← getInputD "magma"
  let crt ← getInputD "/opt/magma/certs/tls.crt"
  let key ← getInputD "/opt/magma/certs/tls.key"
  pure { cfg with orchestrator := some {
      ns := some ns, storageCls := some sc, dbHost := some dbh
      dbPort := some dbp, dbUser := some dbu, dbPassword := some pw
      dbName := some dbn, tlsCertPath := some crt, tlsKeyPath := some key } }

/-- Embeds `collect_agw_config` (lines 350-369). -/
def collect_agw_config (cfg : Config) : RdM Config := do
  let iface ← getInputD "eth0"
  let ip ← promptValidated validate_ip_address
  let mcc ← getInputD "001"
  let mnc ← getInputD "01"
  let tac ← getInputD "1"
  let s1ip ← getInputD ip
  let s1p ← getInputD "36412"
  pure { cfg with agw := some {
      interface := some iface, ipAddress := some ip, mcc := some mcc
      mnc := some mnc, tac := some tac, s1apIp := some s1ip
      s1apPort := some s1p } }

/-- Embeds `collect_fgw_config` (lines 371-383). -/
def collect_fgw_config (cfg : Config) : RdM Config := do
  let fid ← getInputD "fgw01"
  let sniRaw ← getInputD "network1,network2"
  let dh ← getInputD "fgw.magma.local"
  let drm ← getInputD "magma.local"
  let dp ← getInputD "3868"
  pure { cfg with fgw := some {
      federationId := some fid
      servedNetworkIds := some ((pySplit ',' sniRaw.toList).map String.mk)
      diameterHost := some dh, diameterRealm := some drm
      diameterPort := some dp } }

/-- Embeds `if "orchestrator" in self.config["components"]` dispatch
(lines 314-315). -/
def dispatchOrc (comps : List Comp) (cfg : Config) : RdM Config :=
  if Comp.orchestrator ∈ comps then collect_orchestrator_config cfg else pure cfg

/-- Embeds `if "agw" in self.config["components"]` dispatch (lines 317-318). -/
def dispatchAgw (comps : List Comp) (cfg : Config) : RdM Config :=
  if Comp.agw ∈ comps then collect_agw_config cfg else pure cfg

/-- Embeds `if "fgw" in self.config["components"]` dispatch (lines 320-321). -/
def dispatchFgw (comps : List Comp) (cfg : Config) : RdM Config :=
  if Comp.fgw ∈ comps then collect_fgw_config cfg else pure cfg

/-- The prompting part of `collect_deployment_config` (lines 268-321):
component selection, general configuration, then the three component
dispatches; reading `self.config["components"]` raises a `KeyError` when no
choice branch stored the components list. -/
def collectConfigR (cfg0 : Config) : RdM Config := do
  let cfg1 ← selectComponentsR cfg0
  let cfg2 ← collectGeneralR cfg1
  let comps ← reqRd cfg2.components "components"
  let cfg3 ← dispatchOrc comps cfg2
  let cfg4 ← dispatchAgw comps cfg3
  let cfg5 ← dispatchFgw comps cfg4
  pure cfg5

/-- A file written by the run: a generated shell script, or the persisted
configuration document. -/
inductive FileData
  | script (content : String)
  | document (d : YDoc)
deriving DecidableEq, Repr

/-- State of a run: pending input events, files written so far, external
commands issued so far. -/
structure St where
  stdin : List Inp
  files : List (String × FileData)
  cmds : List String
deriving DecidableEq, Repr

/-- The outside world: which external commands succeed (this includes the
`which` probes for tool presence) and what they print, and what loading a
`--config` file yields (`open` + `yaml.safe_load`). -/
structure Env where
  cmdOk : String → Bool
  cmdOut : String → String
  loadCfg : String → Except String Config

/-- A stateful computation of the run. -/
def Step (α : Type) : Type := St → (Except Err α) × St

instance : Monad Step where
  pure a := fun st => (Except.ok a, st)
  bind x f := fun st =>
    match x st with
    | (Except.ok a, st') => f a st'
    | (Except.error e, st') => (Except.error e, st')

theorem step_bind_apply {α β : Type} (x : Step α) (f : α → Step β) (st : St) :
    (x >>= f) st =
      match x st with
      | (Except.ok a, st') => f a st'
      | (Except.error e, st') => (Except.error e, st') := rfl

theorem step_pure_apply {α : Type} (a : α) (st : St) :
    (pure a : Step α) st = (Except.ok a, st) := rfl

theorem step_bind_ok {α β : Type} (x : Step α) (f : α → Step β) (st st' : St)
    (a : α) (h : x st = (Except.ok a, st')) : (x >>= f) st = f a st' := by
  rw [step_bind_apply, h]

theorem step_bind_err {α β : Type} (x : Step α) (f : α → Step β) (st st' : St)
    (e : Err) (h : x st = (Except.error e, st')) :
    (x >>= f) st = (Except.error e, st') := by
  rw [step_bind_apply, h]

/-- Lift a prompting computation: it only consumes input. -/
def liftRd {α : Type} (m : RdM α) : Step α :=
  fun st => ((m st.stdin).1, { st with stdin := (m st.stdin).2 })

/-- Lift a pure dictionary read or generator result. -/
def ofExceptStep {α : Type} (e : Except Err α) : Step α := fun st => (e, st)

/-- Embeds `confirm_action` as a run step. -/
def confirm_action : Step Bool := liftRd confirmLoop

/-- Record a file write (`open(path, 'w')` + `write`). -/
def writeFileStep (path : String) (content : FileData) : Step Unit :=
  fun st => (Except.ok (), { st with files := st.files ++ [(path, content)] })

/-- Embeds `run_command` with `check=True`: log the command; non-zero exit raises
`CalledProcessError`. -/
def run_command_checked (env : Env) (c : String) : Step String :=
  fun st =>
    let st' := { st with cmds := st.cmds ++ [c] }
    if env.cmdOk c then (Except.ok (env.cmdOut c), st')
    else (Except.error (Err.cmdErr c), st')

/-- Embeds `run_command` with `check=False`: never raises; report exit status and
captured output. -/
def run_command_nocheck (env : Env) (c : String) : Step (Bool × String) :=
  fun st => (Except.ok (env.cmdOk c, env.cmdOut c), { st with cmds := st.cmds ++ [c] })

/-- A checked command whose `CalledProcessError` the caller tolerates
(namespace creation in `deploy_orchestrator`, lines 411-415). -/
def run_command_tolerant (env : Env) (c : String) : Step Unit :=
  fun st => (Except.ok (), { st with cmds := st.cmds ++ [c] })

/-- The fixed prerequisite tool list (lines 143-149). -/
def prereqTools : List String := ["docker", "docker-compose", "kubectl", "helm", "git"]

/-- Probe each tool with `which` (check=False) and collect the missing ones
(lines 151-163). -/
def probeTools (env : Env) : List String → Step (List String)
  | [] => pure []
  | t :: ts => do
    let r ← run_command_nocheck env ("which " ++ t)
    let rest ← probeTools env ts
    pure (if r.1 then rest else t :: rest)

/-- Run a fixed command sequence, stopping at the first failure. -/
def runAllCmds (env : Env) : List String → Step Unit
  | [] => pure ()
  | c :: cs => do
    let _ ← run_command_checked env c
    runAllCmds env cs

/-- Embeds `install_docker` (lines 216-244). -/
def install_docker (env : Env) (pm : String) : Step Unit := do
  runAllCmds env (if pm = "apt" then
      ["sudo apt-get update",
       "sudo apt-get install -y apt-transport-https ca-certificates curl gnupg lsb-release",
       "curl -fsSL https://download.docker.com/linux/ubuntu/gpg | sudo gpg --dearmor -o /usr/share/keyrings/docker-archive-keyring.gpg",
       "echo \"deb [arch=amd64 signed-by=/usr/share/keyrings/docker-archive-keyring.gpg] https://download.docker.com/linux/ubuntu $(lsb_release -cs) stable\" | sudo tee /etc/apt/sources.list.d/docker.list > /dev/null",
       "sudo apt-get update",
       "sudo apt-get install -y docker-ce docker-ce-cli containerd.io"]
    else
      ["sudo yum install -y yum-utils",
       "sudo yum-config-manager --add-repo https://download.docker.com/linux/centos/docker-ce.repo",
       "sudo yum install -y docker-ce docker-ce-cli containerd.io"])
  let _ ← run_command_checked env "sudo systemctl start docker"
  let _ ← run_command_checked env "sudo systemctl enable docker"
  let u ← run_command_checked env "whoami"
  let _ ← run_command_checked env ("sudo usermod -aG docker " ++ pyStrip u)
  pure ()

/-- Embeds `install_docker_compose` (lines 246-249). -/
def install_docker_compose (env : Env) : Step Unit := do
  let _ ← run_command_checked env "sudo curl -L \"https://github.com/docker/compose/releases/download/1.29.2/docker-compose-$(uname -s)-$(uname -m)\" -o /usr/local/bin/docker-compose"
  let _ ← run_command_checked env "sudo chmod +x /usr/local/bin/docker-compose"
  pure ()

/-- Embeds `install_kubectl` (lines 251-258). -/
def install_kubectl (env : Env) : Step Unit := do
  let _ ← run_command_checked env "curl -LO \"https://dl.k8s.io/release/$(curl -L -s https://dl.k8s.io/release/stable.txt)/bin/linux/amd64/kubectl\""
  let _ ← run_command_checked env "sudo install -o root -g root -m 0755 kubectl /usr/local/bin/kubectl"
  pure ()

/-- Embeds `install_helm` (lines 260-266). -/
def install_helm (env : Env) : Step Unit := do
  let _ ← run_command_checked env "curl https://raw.githubusercontent.com/helm/helm/main/scripts/get-helm-3 | bash"
  pure ()

/-- One iteration of the install loop of `install_prerequisites`
(lines 194-212). -/
def installOne (env : Env) (pm : String) : String → Step Unit
  | "docker" => install_docker env pm
  | "docker-compose" => install_docker_compose env
  | "kubectl" => install_kubectl env
  | "helm" => install_helm env
  | "git" =>
    if pm = "apt" then do
      let _ ← run_command_checked env "sudo apt-get update && sudo apt-get install -y git"
      pure ()
    else do
      let _ ← run_command_checked env "sudo yum install -y git"
      pure ()
  | _ => pure ()

/-- The per-dependency loop: any exception during an install aborts the
installer with `False` (lines 195-212). -/
def installLoop (env : Env) (pm : String) : List String → Step Bool
  | [] => pure true
  | d :: ds => fun st =>
    match installOne env pm d st with
    | (Except.ok _, st') => installLoop env pm ds st'
    | (Except.error _, st') => (Except.ok false, st')

/-- Does the list start with the pattern? -/
def startsWithL (pat s : List Char) : Bool :=
  match pat, s with
  | [], _ => true
  | _ :: _, [] => false
  | a :: as, b :: bs => a = b && startsWithL as bs

/-- Substring test on character lists. -/
def hasSubstrL (pat : List Char) : List Char → Bool
  | [] => startsWithL pat []
  | c :: rest => startsWithL pat (c :: rest) || hasSubstrL pat rest

/-- Python `in` on the lowered OS release text. -/
def containsSub (s pat : String) : Bool :=
  hasSubstrL pat.toList s.toList

/-- Embeds `install_prerequisites` (lines 176-214): detect the OS family from
`/etc/os-release` (any failure, including the command failing, yields
`False` via the bare `except`), then install each missing dependency. -/
def install_prerequisites (env : Env) (missing : List String) : Step Bool := do
  let r ← run_command_nocheck env "cat /etc/os-release"
  if !r.1 then pure false
  else
    let osr := pyLower r.2
    if containsSub osr "ubuntu" || containsSub osr "debian" then
      installLoop env "apt" missing
    else if containsSub osr "centos" || containsSub osr "rhel" then
      installLoop env "yum" missing
    else pure false

/-- Embeds `check_prerequisites` (lines 139-174): probe the tools; if any are
missing, offer auto-install; declining fails the check. -/
def check_prerequisites (env : Env) : Step Bool := do
  let missing ← probeTools env prereqTools
  if missing.isEmpty then pure true
  else do
    let b ← confirm_action
    if b then install_prerequisites env missing
    else pure false

/-- Embeds `deploy_orchestrator` (lines 407-423): read the namespace (a `KeyError`
escapes the `except subprocess.CalledProcessError` handler), tolerate the
namespace-creation failure, then generate, `chmod` and execute the script. -/
def deploy_orchestrator (env : Env) (cfg : Config) : Step Unit := do
  let o ← ofExceptStep (req cfg.orchestrator "orchestrator")
  let ns ← ofExceptStep (req o.ns "namespace")
  run_command_tolerant env ("kubectl create namespace " ++ ns)
  let content ← ofExceptStep (generate_orchestrator_script cfg)
  writeFileStep "scripts/deploy_orchestrator.sh" (FileData.script content)
  let _ ← run_command_checked env "chmod +x scripts/deploy_orchestrator.sh"
  let _ ← run_command_checked env "scripts/deploy_orchestrator.sh"
  pure ()

/-- Embeds `deploy_agw` (lines 425-435). -/
def deploy_agw (env : Env) (cfg : Config) : Step Unit := do
  let content ← ofExceptStep (generate_agw_script cfg)
  writeFileStep "scripts/deploy_agw.sh" (FileData.script content)
  let _ ← run_command_checked env "chmod +x scripts/deploy_agw.sh"
  let _ ← run_command_checked env "scripts/deploy_agw.sh"
  pure ()

/-- Embeds `deploy_fgw` (lines 437-447). -/
def deploy_fgw (env : Env) (cfg : Config) : Step Unit := do
  let content ← ofExceptStep (generate_fgw_script cfg)
  writeFileStep "scripts/deploy_fgw.sh" (FileData.script content)
  let _ ← run_command_checked env "chmod +x scripts/deploy_fgw.sh"
  let _ ← run_command_checked env "scripts/deploy_fgw.sh"
  pure ()

/-- Embeds `deploy_nms` (lines 449-459). -/
def deploy_nms (env : Env) (cfg : Config) : Step Unit := do
  let content ← ofExceptStep (generate_nms_script cfg)
  writeFileStep "scripts/deploy_nms.sh" (FileData.script content)
  let _ ← run_command_checked env "chmod +x scripts/deploy_nms.sh"
  let _ ← run_command_checked env "scripts/deploy_nms.sh"
  pure ()

/-- Dispatch one component's deployment. -/
def deployOne (env : Env) (cfg : Config) : Comp → Step Unit
  | .orchestrator => deploy_orchestrator env cfg
  | .agw => deploy_agw env cfg
  | .fgw => deploy_fgw env cfg
  | .nms => deploy_nms env cfg

/-- The loop of `deploy_components` (lines 390-402). -/
def deployList (env : Env) (cfg : Config) : List Comp → Step Unit
  | [] => pure ()
  | c :: cs => do
    deployOne env cfg c
    deployList env cfg cs

/-- Embeds `display_deployment_summary` (lines 676-704): a pure read of the final
configuration; the keys it interpolates are read here (console output
itself is not modelled). -/
def display_deployment_summary (cfg : Config) : Step Unit := do
  let comps ← ofExceptStep (req cfg.components "components")
  if Comp.orchestrator ∈ comps then do
    let _ ← ofExceptStep (req cfg.domain "domain")
    let o ← ofExceptStep (req cfg.orchestrator "orchestrator")
    let _ ← ofExceptStep (req o.ns "namespace")
    pure ()
  else pure ()
  if Comp.nms ∈ comps then do
    let _ ← ofExceptStep (req cfg.domain "domain")
    let _ ← ofExceptStep (req cfg.adminEmail "admin_email")
    pure ()
  else pure ()
  if Comp.agw ∈ comps then do
    let a ← ofExceptStep (req cfg.agw "agw")
    let _ ← ofExceptStep (req a.ipAddress "ip_address")
    let _ ← ofExceptStep (req a.mcc "mcc")
    let _ ← ofExceptStep (req a.mnc "mnc")
    pure ()
  else pure ()
  if Comp.fgw ∈ comps then do
    let f ← ofExceptStep (req cfg.fgw "fgw")
    let _ ← ofExceptStep (req f.federationId "federation_id")
    let _ ← ofExceptStep (req f.diameterHost "diameter_host")
    let _ ← ofExceptStep (req f.diameterPort "diameter_port")
    pure ()
  else pure ()

/-- Embeds `deploy_components` (lines 385-405). -/
def deploy_components (env : Env) (cfg : Config) : Step Unit := do
  let comps ← ofExceptStep (req cfg.components "components")
  deployList env cfg comps
  display_deployment_summary cfg

/-- NMS console URL line printed by the summary (line 686). -/
def nmsConsoleUrl (domain : String) : String :=
  "https://" ++ domain ++ ":8080"

/-- Tag strings stored in the `components` list. -/
def compTag : Comp → String
  | .orchestrator => "orchestrator"
  | .agw => "agw"
  | .fgw => "fgw"
  | .nms => "nms"

/-- Key/value pairs of an optional string field, skipped when absent. -/
def optStr (k : String) (o : Option String) : List (String × YLeaf) :=
  match o with
  | some v => [(k, YLeaf.str v)]
  | none => []

/-- The `orchestrator` sub-mapping as persisted (keys in `yaml.dump`
sorted order). -/
def orcDoc (o : OrcCfg) : List (String × YLeaf) :=
  optStr "db_host" o.dbHost ++ optStr "db_name" o.dbName ++
    optStr "db_password" o.dbPassword ++ optStr "db_port" o.dbPort ++
    optStr "db_user" o.dbUser ++ optStr "namespace" o.ns ++
    optStr "storage_class" o.storageCls ++ optStr "tls_cert_path" o.tlsCertPath ++
    optStr "tls_key_path" o.tlsKeyPath

/-- The `agw` sub-mapping as persisted (sorted keys). -/
def agwDoc (a : AgwCfg) : List (String × YLeaf) :=
  optStr "interface" a.interface ++ optStr "ip_address" a.ipAddress ++
    optStr "mcc" a.mcc ++ optStr "mnc" a.mnc ++ optStr "s1ap_ip" a.s1apIp ++
    optStr "s1ap_port" a.s1apPort ++ optStr "tac" a.tac

/-- The `fgw` sub-mapping as persisted (sorted keys). -/
def fgwDoc (f : FgwCfg) : List (String × YLeaf) :=
  optStr "diameter_host" f.diameterHost ++ optStr "diameter_port" f.diameterPort ++
    optStr "diameter_realm" f.diameterRealm ++ optStr "federation_id" f.federationId ++
    (match f.servedNetworkIds with
     | some xs => [("served_network_ids", YLeaf.vlist xs)]
     | none => [])

/-- The configuration as a persisted document: `yaml.dump(self.config)` with
its default alphabetical key order, absent keys skipped. -/
def docOfConfig (cfg : Config) : YDoc :=
  (match cfg.adminEmail with
   | some v => [("admin_email", YEntry.leaf (YLeaf.str v))]
   | none => []) ++
  (match cfg.agw with
   | some a => [("agw", YEntry.sub (agwDoc a))]
   | none => []) ++
  (match cfg.components with
   | some cs => [("components", YEntry.leaf (YLeaf.vlist (cs.map compTag)))]
   | none => []) ++
  (match cfg.domain with
   | some v => [("domain", YEntry.leaf (YLeaf.str v))]
   | none => []) ++
  (match cfg.fgw with
   | some f => [("fgw", YEntry.sub (fgwDoc f))]
   | none => []) ++
  (match cfg.networkExternalIp with
   | some ip => [("network", YEntry.sub [("external_ip", YLeaf.str ip)])]
   | none => []) ++
  (match cfg.orchestrator with
   | some o => [("orchestrator", YEntry.sub (orcDoc o))]
   | none => [])

/-- Embeds `collect_deployment_config` (lines 268-328): the questionnaire followed
by saving the configuration document. -/
def collect_deployment_config (cfg0 : Config) : Step Config := do
  let cfg ← liftRd (collectConfigR cfg0)
  writeFileStep "config/deployment_config.yaml" (FileData.document (docOfConfig cfg))
  pure cfg

/-- Embeds `run_deployment` body (lines 706-721) before exception handling:
welcome confirmation (declining exits with code 0), prerequisites,
questionnaire, final confirmation, deployment. -/
def run_deployment_body (env : Env) (cfg0 : Config) : Step Bool := do
  let cont ← confirm_action
  if cont then do
    let ok ← check_prerequisites env
    if ok then do
      let cfg ← collect_deployment_config cfg0
      let go ← confirm_action
      if go then do
        deploy_components env cfg
        pure true
      else pure false
    else pure false
  else ofExceptStep (Except.error Err.exitZero)

/-- Embeds `run_deployment` (lines 706-729): `except KeyboardInterrupt` and
`except Exception` both return `False`; `SystemExit` (the declined welcome
prompt) passes through. -/
def run_deployment (env : Env) (cfg0 : Config) : Step Bool :=
  fun st =>
    match run_deployment_body env cfg0 st with
    | (Except.ok b, st') => (Except.ok b, st')
    | (Except.error Err.exitZero, st') => (Except.error Err.exitZero, st')
    | (Except.error _, st') => (Except.ok false, st')

/-- Command-line arguments (lines 733-738). -/
structure Args where
  config : Option String
  skipPrereqsFlag : Bool
  dryRunFlag : Bool

/-- Observable outcome of a whole run. -/
structure RunResult where
  exitCode : Nat
  files : List (String × FileData)
  cmds : List String
deriving DecidableEq, Repr

/-- Fresh run state over an input stream. -/
def initSt (stdin : List Inp) : St := { stdin := stdin, files := [], cmds := [] }

/-- The run from a starting configuration: exit 0 on `True` or on
`sys.exit(0)`, exit 1 on `False` (lines 753-759). -/
def mainGo (env : Env) (cfg0 : Config) (stdin : List Inp) : RunResult :=
  match run_deployment env cfg0 (initSt stdin) with
  | (Except.ok true, st) => { exitCode := 0, files := st.files, cmds := st.cmds }
  | (Except.ok false, st) => { exitCode := 1, files := st.files, cmds := st.cmds }
  | (Except.error _, st) => { exitCode := 0, files := st.files, cmds := st.cmds }

/-- Embeds `main` (lines 731-759): optionally load a configuration file
(a load error exits 1 immediately), then run the deployment.  The
`--skip-prerequisites` and `--dry-run` flags are parsed but never read. -/
def mainRun (args : Args) (env : Env) (stdin : List Inp) : RunResult :=
  match args.config with
  | some p =>
    match env.loadCfg p with
    | Except.error _ => { exitCode := 1, files := [], cmds := [] }
    | Except.ok cfg0 => mainGo env cfg0 stdin
  | none => mainGo env emptyConfig stdin

/-- The outcome of `run_deployment` alone (used to phrase exit-code
claims). -/
def runOutcome (env : Env) (cfg0 : Config) (stdin : List Inp) : Except Err Bool :=
  (run_deployment env cfg0 (initSt stdin)).1

/-- An environment in which every external command succeeds (printing
nothing) and no configuration file loads. -/
def envAllOk : Env :=
  { cmdOk := fun _ => true, cmdOut := fun _ => "",
    loadCfg := fun _ => Except.error "no file" }

/-- Input stream: continue, custom selection picking only NMS, domain
`example.org`, admin email `ops@example.org`, external IP, final confirm. -/
def c1Stdin : List Inp :=
  [.line "y", .line "5", .line "n", .line "n", .line "n", .line "y",
   .line "example.org", .line "ops@example.org", .line "1.2.3.4", .line "y"]

/-- C1: the claim's end-to-end scenario.  With only the management console
selected the configuration has no `orchestrator` sub-record, yet the NMS
template reads `config['orchestrator']['namespace']`; rendering raises
`KeyError('orchestrator')`, the run exits 1, and the only file ever written
is the saved configuration — no console script is generated and the summary
is never reached. -/
theorem C1_nms_only_scenario :
    generate_nms_script { emptyConfig with
      components := some [Comp.nms], domain := some "example.org"
      adminEmail := some "ops@example.org"
      networkExternalIp := some "1.2.3.4" } =
      Except.error (Err.keyErr "orchestrator") ∧
    (mainRun ⟨none, false, false⟩ envAllOk c1Stdin).exitCode = 1 ∧
    (mainRun ⟨none, false, false⟩ envAllOk c1Stdin).files.map Prod.fst =
      ["config/deployment_config.yaml"] :=
  ⟨rfl, rfl, rfl⟩

/-- C5: the `--skip-prerequisites` and `--dry-run` flags are parsed but
never consulted: two runs differing only in those flags are identical. -/
theorem C5_unwired_flags :
    ∀ (c : Option String) (sp1 sp2 dr1 dr2 : Bool) (env : Env) (stdin : List Inp),
      mainRun ⟨c, sp1, dr1⟩ env stdin = mainRun ⟨c, sp2, dr2⟩ env stdin := by
  intro c sp1 sp2 dr1 dr2 env stdin
  rfl

theorem mainGo_decline (env : Env) (cfg0 : Config) (stdin rest : List Inp)
    (h : confirmLoop stdin = (Except.ok false, rest)) :
    mainGo env cfg0 stdin = { exitCode := 0, files := [], cmds := [] } := by
  unfold mainGo run_deployment run_deployment_body
  have hc : confirm_action (initSt stdin) =
      (Except.ok false, { stdin := rest, files := [], cmds := [] }) := by
    simp [confirm_action, liftRd, initSt, h]
  rw [step_bind_ok _ _ _ _ _ hc]
  simp [ofExceptStep]

/-- C6: when the initial continue-prompt is declined (and the optional
`--config` file, if given, loaded), the program exits with code 0 having
written no configuration file and no script file (and run no command). -/
theorem C6_decline_exits_zero :
    ∀ (args : Args) (env : Env) (stdin rest : List Inp),
      (args.config = none ∨
        ∃ p cfg0, args.config = some p ∧ env.loadCfg p = Except.ok cfg0) →
      confirmLoop stdin = (Except.ok false, rest) →
      mainRun args env stdin = { exitCode := 0, files := [], cmds := [] } := by
  intro args env stdin rest hload h
  rcases hload with hnone | ⟨p, cfg0, hsome, hok⟩
  · unfold mainRun
    rw [hnone]
    exact mainGo_decline env emptyConfig stdin rest h
  · unfold mainRun
    rw [hsome]
    dsimp only
    rw [hok]
    exact mainGo_decline env cfg0 stdin rest h

/-- Witness for `C6_decline_exits_zero`: answering `n` immediately. -/
theorem C6_decline_exits_zero_witness :
    mainRun ⟨none, false, false⟩ envAllOk [Inp.line "n"] =
      { exitCode := 0, files := [], cmds := [] } :=
  C6_decline_exits_zero ⟨none, false, false⟩ envAllOk [Inp.line "n"] []
    (Or.inl rfl) (by rfl)

/-- C9: the frozen claim says the program exits 0 exactly when deployment
completes successfully; but declining the initial continue-prompt also
exits 0 without any deployment. -/
theorem C9_counterexample :
    (mainRun ⟨none, false, false⟩ envAllOk [Inp.line "n"]).exitCode = 0 ∧
    runOutcome envAllOk emptyConfig [Inp.line "n"] ≠ Except.ok true := by
  constructor
  · rfl
  · intro h
    rw [show runOutcome envAllOk emptyConfig [Inp.line "n"] =
        Except.error Err.exitZero from rfl] at h
    exact Except.noConfusion h

theorem run_deployment_error_shape (env : Env) (cfg0 : Config) (st : St) :
    ∀ (e : Err) (st' : St),
      run_deployment env cfg0 st = (Except.error e, st') → e = Err.exitZero := by
  intro e st' h
  unfold run_deployment at h
  rcases hb : run_deployment_body env cfg0 st with ⟨r, st1⟩
  rw [hb] at h
  cases r with
  | ok b => simp at h
  | error e2 => cases e2 <;> simp_all

/-- C9 (amended): the exit code is 0 exactly when deployment completed
successfully OR the user declined the initial continue-prompt
(`sys.exit(0)`); it is 1 exactly when `run_deployment` returned `False`
(prerequisite failure, interrupt, declined final confirmation, or an
exception), and a configuration-load error also exits 1. -/
theorem C9_exit_code_mapping :
    ∀ (env : Env) (cfg0 : Config) (stdin : List Inp),
      ((mainGo env cfg0 stdin).exitCode = 0 ↔
        (runOutcome env cfg0 stdin = Except.ok true ∨
          runOutcome env cfg0 stdin = Except.error Err.exitZero)) ∧
      ((mainGo env cfg0 stdin).exitCode = 1 ↔
        runOutcome env cfg0 stdin = Except.ok false) ∧
      (∀ (args : Args) (p e : String), args.config = some p →
        env.loadCfg p = Except.error e → (mainRun args env stdin).exitCode = 1) := by
  intro env cfg0 stdin
  refine ⟨?_, ?_, ?_⟩
  · rcases hr : run_deployment env cfg0 (initSt stdin) with ⟨r, st'⟩
    unfold mainGo runOutcome
    rw [hr]
    cases r with
    | ok b => cases b <;> simp
    | error e =>
      have he := run_deployment_error_shape env cfg0 (initSt stdin) e st' hr
      subst he
      simp
  · rcases hr : run_deployment env cfg0 (initSt stdin) with ⟨r, st'⟩
    unfold mainGo runOutcome
    rw [hr]
    cases r with
    | ok b => cases b <;> simp
    | error e =>
      have he := run_deployment_error_shape env cfg0 (initSt stdin) e st' hr
      subst he
      simp
  · intro args p e hc he
    unfold mainRun
    rw [hc]
    dsimp only
    rw [he]

/-- Witness for `C9_exit_code_mapping`: a failing `--config` load exits 1. -/
theorem C9_exit_code_mapping_witness :
    (mainRun ⟨some "magma.yaml", false, false⟩ envAllOk [Inp.line "n"]).exitCode = 1 :=
  (C9_exit_code_mapping envAllOk emptyConfig [Inp.line "n"]).2.2
    ⟨some "magma.yaml", false, false⟩ "magma.yaml" "no file" rfl rfl

theorem reqRd_ok {α : Type} (o : Option α) (k : String) (ins ins' : List Inp)
    (a : α) (h : reqRd o k ins = (Except.ok a, ins')) :
    o = some a ∧ ins' = ins := by
  cases o with
  | none => simp [reqRd, req] at h
  | some v =>
    rw [show reqRd (some v) k ins = (Except.ok v, ins) from rfl] at h
    injection h with h1 h2
    injection h1 with h1
    exact ⟨by rw [h1], h2.symm⟩

theorem selectComponentsR_fields (cfg cfg' : Config) (ins ins' : List Inp)
    (h : selectComponentsR cfg ins = (Except.ok cfg', ins')) :
    cfg'.orchestrator = cfg.orchestrator ∧ cfg'.agw = cfg.agw ∧
    cfg'.fgw = cfg.fgw := by
  unfold selectComponentsR at h
  obtain ⟨choice, ins1, h1, h2⟩ := (rd_bind_ok_iff _ _ _ _ _).mp h
  by_cases e1 : choice = "1"
  · rw [if_pos e1, rd_pure_apply] at h2
    injection h2 with h2a h2b
    injection h2a with h2a
    subst h2a
    exact ⟨rfl, rfl, rfl⟩
  · rw [if_neg e1] at h2
    by_cases e2 : choice = "2"
    · rw [if_pos e2, rd_pure_apply] at h2
      injection h2 with h2a h2b
      injection h2a with h2a
      subst h2a
      exact ⟨rfl, rfl, rfl⟩
    · rw [if_neg e2] at h2
      by_cases e3 : choice = "3"
      · rw [if_pos e3, rd_pure_apply] at h2
        injection h2 with h2a h2b
        injection h2a with h2a
        subst h2a
        exact ⟨rfl, rfl, rfl⟩
      · rw [if_neg e3] at h2
        by_cases e4 : choice = "4"
        · rw [if_pos e4, rd_pure_apply] at h2
          injection h2 with h2a h2b
          injection h2a with h2a
          subst h2a
          exact ⟨rfl, rfl, rfl⟩
        · rw [if_neg e4] at h2
          by_cases e5 : choice = "5"
          · rw [if_pos e5] at h2
            obtain ⟨b1, j1, hb1, h2⟩ := (rd_bind_ok_iff _ _ _ _ _).mp h2
            obtain ⟨b2, j2, hb2, h2⟩ := (rd_bind_ok_iff _ _ _ _ _).mp h2
            obtain ⟨b3, j3, hb3, h2⟩ := (rd_bind_ok_iff _ _ _ _ _).mp h2
            obtain ⟨b4, j4, hb4, h2⟩ := (rd_bind_ok_iff _ _ _ _ _).mp h2
            rw [rd_pure_apply] at h2
            injection h2 with h2a h2b
            injection h2a with h2a
            subst h2a
            exact ⟨rfl, rfl, rfl⟩
          · rw [if_neg e5, rd_pure_apply] at h2
            injection h2 with h2a h2b
            injection h2a with h2a
            subst h2a
            exact ⟨rfl, rfl, rfl⟩

theorem collectGeneralR_fields (cfg cfg' : Config) (ins ins' : List Inp)
    (h : collectGeneralR cfg ins = (Except.ok cfg', ins')) :
    cfg'.components = cfg.components ∧ cfg'.orchestrator = cfg.orchestrator ∧
    cfg'.agw = cfg.agw ∧ cfg'.fgw = cfg.fgw := by
  unfold collectGeneralR at h
  obtain ⟨d, i1, h1, h⟩ := (rd_bind_ok_iff _ _ _ _ _).mp h
  obtain ⟨em, i2, h2, h⟩ := (rd_bind_ok_iff _ _ _ _ _).mp h
  obtain ⟨ip, i3, h3, h⟩ := (rd_bind_ok_iff _ _ _ _ _).mp h
  rw [rd_pure_apply] at h
  injection h with ha hb
  injection ha with ha
  subst ha
  exact ⟨rfl, rfl, rfl, rfl⟩

theorem collect_orchestrator_config_fields (cfg cfg' : Config) (ins ins' : List Inp)
    (h : collect_orchestrator_config cfg ins = (Except.ok cfg', ins')) :
    cfg'.orchestrator.isSome = true ∧ cfg'.components = cfg.components ∧
    cfg'.agw = cfg.agw ∧ cfg'.fgw = cfg.fgw := by
  unfold collect_orchestrator_config at h
  obtain ⟨x1, i1, g1, h⟩ := (rd_bind_ok_iff _ _ _ _ _).mp h
  obtain ⟨x2, i2, g2, h⟩ := (rd_bind_ok_iff _ _ _ _ _).mp h
  obtain ⟨x3, i3, g3, h⟩ := (rd_bind_ok_iff _ _ _ _ _).mp h
  obtain ⟨x4, i4, g4, h⟩ := (rd_bind_ok_iff _ _ _ _ _).mp h
  obtain ⟨x5, i5, g5, h⟩ := (rd_bind_ok_iff _ _ _ _ _).mp h
  obtain ⟨x6, i6, g6, h⟩ := (rd_bind_ok_iff _ _ _ _ _).mp h
  obtain ⟨x7, i7, g7, h⟩ := (rd_bind_ok_iff _ _ _ _ _).mp h
  obtain ⟨x8, i8, g8, h⟩ := (rd_bind_ok_iff _ _ _ _ _).mp h
  obtain ⟨x9, i9, g9, h⟩ := (rd_bind_ok_iff _ _ _ _ _).mp h
  rw [rd_pure_apply] at h
  injection h with ha hb
  injection ha with ha
  subst ha
  exact ⟨rfl, rfl, rfl, rfl⟩

theorem collect_agw_config_fields (cfg cfg' : Config) (ins ins' : List Inp)
    (h : collect_agw_config cfg ins = (Except.ok cfg', ins')) :
    cfg'.agw.isSome = true ∧ cfg'.components = cfg.components ∧
    cfg'.orchestrator = cfg.orchestrator ∧ cfg'.fgw = cfg.fgw := by
  unfold collect_agw_config at h
  obtain ⟨x1, i1, g1, h⟩ := (rd_bind_ok_iff _ _ _ _ _).mp h
  obtain ⟨x2, i2, g2, h⟩ := (rd_bind_ok_iff _ _ _ _ _).mp h
  obtain ⟨x3, i3, g3, h⟩ := (rd_bind_ok_iff _ _ _ _ _).mp h
  obtain ⟨x4, i4, g4, h⟩ := (rd_bind_ok_iff _ _ _ _ _).mp h
  obtain ⟨x5, i5, g5, h⟩ := (rd_bind_ok_iff _ _ _ _ _).mp h
  obtain ⟨x6, i6, g6, h⟩ := (rd_bind_ok_iff _ _ _ _ _).mp h
  obtain ⟨x7, i7, g7, h⟩ := (rd_bind_ok_iff _ _ _ _ _).mp h
  rw [rd_pure_apply] at h
  injection h with ha hb
  injection ha with ha
  subst ha
  exact ⟨rfl, rfl, rfl, rfl⟩

theorem collect_fgw_config_fields (cfg cfg' : Config) (ins ins' : List Inp)
    (h : collect_fgw_config cfg ins = (Except.ok cfg', ins')) :
    cfg'.fgw.isSome = true ∧ cfg'.components = cfg.components ∧
    cfg'.orchestrator = cfg.orchestrator ∧ cfg'.agw = cfg.agw := by
  unfold collect_fgw_config at h
  obtain ⟨x1, i1, g1, h⟩ := (rd_bind_ok_iff _ _ _ _ _).mp h
  obtain ⟨x2, i2, g2, h⟩ := (rd_bind_ok_iff _ _ _ _ _).mp h
  obtain ⟨x3, i3, g3, h⟩ := (rd_bind_ok_iff _ _ _ _ _).mp h
  obtain ⟨x4, i4, g4, h⟩ := (rd_bind_ok_iff _ _ _ _ _).mp h
  obtain ⟨x5, i5, g5, h⟩ := (rd_bind_ok_iff _ _ _ _ _).mp h
  rw [rd_pure_apply] at h
  injection h with ha hb
  injection ha with ha
  subst ha
  exact ⟨rfl, rfl, rfl, rfl⟩

/-- C4: after the questionnaire completes (from the empty starting
configuration), each of the orchestrator / access-gateway /
federated-gateway sub-records is present if and only if its tag is in the
stored components list. -/
theorem C4_component_subrecords :
    ∀ (stdin : List Inp) (cfg : Config),
      (collectConfigR emptyConfig stdin).1 = Except.ok cfg →
      ∃ comps, cfg.components = some comps ∧
        (cfg.orchestrator.isSome ↔ Comp.orchestrator ∈ comps) ∧
        (cfg.agw.isSome ↔ Comp.agw ∈ comps) ∧
        (cfg.fgw.isSome ↔ Comp.fgw ∈ comps) := by
  intro stdin cfg h
  rcases hx : collectConfigR emptyConfig stdin with ⟨r, insf⟩
  rw [hx] at h
  dsimp at h
  subst h
  unfold collectConfigR at hx
  obtain ⟨cfg1, i1, hs, hx⟩ := (rd_bind_ok_iff _ _ _ _ _).mp hx
  obtain ⟨cfg2, i2, hg, hx⟩ := (rd_bind_ok_iff _ _ _ _ _).mp hx
  obtain ⟨comps, i3, hcp, hx⟩ := (rd_bind_ok_iff _ _ _ _ _).mp hx
  obtain ⟨cfg3, i4, h3, hx⟩ := (rd_bind_ok_iff _ _ _ _ _).mp hx
  obtain ⟨cfg4, i5, h4, hx⟩ := (rd_bind_ok_iff _ _ _ _ _).mp hx
  obtain ⟨cfg5, i6, h5, hx⟩ := (rd_bind_ok_iff _ _ _ _ _).mp hx
  rw [rd_pure_apply] at hx
  injection hx with hxa hxb
  injection hxa with hxa
  obtain ⟨hcp1, _⟩ := reqRd_ok _ _ _ _ _ hcp
  obtain ⟨hs1, hs2, hs3⟩ := selectComponentsR_fields _ _ _ _ hs
  obtain ⟨hg1, hg2, hg3, hg4⟩ := collectGeneralR_fields _ _ _ _ hg
  have hc2o : cfg2.orchestrator = none := by rw [hg2, hs1]; rfl
  have hc2a : cfg2.agw = none := by rw [hg3, hs2]; rfl
  have hc2f : cfg2.fgw = none := by rw [hg4, hs3]; rfl
  unfold dispatchOrc at h3
  unfold dispatchAgw at h4
  unfold dispatchFgw at h5
  have h3o : (cfg3.orchestrator.isSome ↔ Comp.orchestrator ∈ comps) ∧
      cfg3.agw = none ∧ cfg3.fgw = none ∧ cfg3.components = some comps := by
    by_cases m : Comp.orchestrator ∈ comps
    · rw [if_pos m] at h3
      obtain ⟨a, b, c, d⟩ := collect_orchestrator_config_fields _ _ _ _ h3
      exact ⟨by simp [a, m], by rw [c, hc2a], by rw [d, hc2f], by rw [b, hcp1]⟩
    · rw [if_neg m, rd_pure_apply] at h3
      injection h3 with h3a h3b
      injection h3a with h3a
      subst h3a
      exact ⟨by simp [hc2o, m], hc2a, hc2f, hcp1⟩
  have h4o : (cfg4.orchestrator.isSome ↔ Comp.orchestrator ∈ comps) ∧
      (cfg4.agw.isSome ↔ Comp.agw ∈ comps) ∧
      cfg4.fgw = none ∧ cfg4.components = some comps := by
    by_cases m : Comp.agw ∈ comps
    · rw [if_pos m] at h4
      obtain ⟨a, b, c, d⟩ := collect_agw_config_fields _ _ _ _ h4
      exact ⟨by rw [c]; exact h3o.1, by simp [a, m], by rw [d]; exact h3o.2.2.1,
        by rw [b]; exact h3o.2.2.2⟩
    · rw [if_neg m, rd_pure_apply] at h4
      injection h4 with h4a h4b
      injection h4a with h4a
      subst h4a
      exact ⟨h3o.1, by simp [h3o.2.1, m], h3o.2.2.1, h3o.2.2.2⟩
  have h5o : (cfg5.orchestrator.isSome ↔ Comp.orchestrator ∈ comps) ∧
      (cfg5.agw.isSome ↔ Comp.agw ∈ comps) ∧
      (cfg5.fgw.isSome ↔ Comp.fgw ∈ comps) ∧ cfg5.components = some comps := by
    by_cases m : Comp.fgw ∈ comps
    · rw [if_pos m] at h5
      obtain ⟨a, b, c, d⟩ := collect_fgw_config_fields _ _ _ _ h5
      exact ⟨by rw [c]; exact h4o.1, by rw [d]; exact h4o.2.1, by simp [a, m],
        by rw [b]; exact h4o.2.2.2⟩
    · rw [if_neg m, rd_pure_apply] at h5
      injection h5 with h5a h5b
      injection h5a with h5a
      subst h5a
      exact ⟨h4o.1, h4o.2.1, by simp [h4o.2.2.1, m], h4o.2.2.2⟩
  subst hxa
  exact ⟨comps, h5o.2.2.2, h5o.1, h5o.2.1, h5o.2.2.1⟩

/-- Witness for `C4_component_subrecords`: choosing "2" (orchestrator only)
yields a configuration with exactly the orchestrator sub-record. -/
theorem C4_component_subrecords_witness :
    ∃ comps,
      (Config.mk (some [Comp.orchestrator]) (some "deploy.example") (some "a@b.c")
        (some "1.2.3.4")
        (some (OrcCfg.mk (some "magma") (some "standard") (some "postgresql")
          (some "5432") (some "magma") (some "pw") (some "magma")
          (some "/opt/magma/certs/tls.crt") (some "/opt/magma/certs/tls.key")))
        none none).components = some comps ∧
      ((Config.mk (some [Comp.orchestrator]) (some "deploy.example") (some "a@b.c")
        (some "1.2.3.4")
        (some (OrcCfg.mk (some "magma") (some "standard") (some "postgresql")
          (some "5432") (some "magma") (some "pw") (some "magma")
          (some "/opt/magma/certs/tls.crt") (some "/opt/magma/certs/tls.key")))
        none none).orchestrator.isSome ↔ Comp.orchestrator ∈ comps) ∧
      ((Config.mk (some [Comp.orchestrator]) (some "deploy.example") (some "a@b.c")
        (some "1.2.3.4")
        (some (OrcCfg.mk (some "magma") (some "standard") (some "postgresql")
          (some "5432") (some "magma") (some "pw") (some "magma")
          (some "/opt/magma/certs/tls.crt") (some "/opt/magma/certs/tls.key")))
        none none).agw.isSome ↔ Comp.agw ∈ comps) ∧
      ((Config.mk (some [Comp.orchestrator]) (some "deploy.example") (some "a@b.c")
        (some "1.2.3.4")
        (some (OrcCfg.mk (some "magma") (some "standard") (some "postgresql")
          (some "5432") (some "magma") (some "pw") (some "magma")
          (some "/opt/magma/certs/tls.crt") (some "/opt/magma/certs/tls.key")))
        none none).fgw.isSome ↔ Comp.fgw ∈ comps) :=
  C4_component_subrecords
    [Inp.line "2", Inp.line "deploy.example", Inp.line "a@b.c",
     Inp.line "1.2.3.4", Inp.line "", Inp.line "", Inp.line "", Inp.line "",
     Inp.line "", Inp.line "pw", Inp.line "", Inp.line "", Inp.line ""]
    (Config.mk (some [Comp.orchestrator]) (some "deploy.example") (some "a@b.c")
      (some "1.2.3.4")
      (some (OrcCfg.mk (some "magma") (some "standard") (some "postgresql")
        (some "5432") (some "magma") (some "pw") (some "magma")
        (some "/opt/magma/certs/tls.crt") (some "/opt/magma/certs/tls.key")))
      none none)
    (by rfl)

theorem probeTools_allOk (env : Env) :
    ∀ (ts : List String) (st : St),
      (∀ t ∈ ts, env.cmdOk ("which " ++ t) = true) →
      probeTools env ts st =
        (Except.ok [], { st with cmds := st.cmds ++ ts.map (fun t => "which " ++ t) }) := by
  intro ts
  induction ts with
  | nil =>
    intro st _
    simp [probeTools, step_pure_apply]
  | cons t ts ih =>
    intro st hw
    have hT : env.cmdOk ("which " ++ t) = true := hw t (by simp)
    unfold probeTools
    rw [step_bind_ok _ _ _ _ _
      (show run_command_nocheck env ("which " ++ t) st =
        (Except.ok (env.cmdOk ("which " ++ t), env.cmdOut ("which " ++ t)),
          { st with cmds := st.cmds ++ ["which " ++ t] }) from rfl)]
    rw [step_bind_ok _ _ _ _ _
      (ih _ (fun t' ht' => hw t' (List.mem_cons_of_mem _ ht')))]
    rw [step_pure_apply]
    rw [hT]
    simp

theorem check_prerequisites_allOk (env : Env)
    (hw : ∀ t ∈ prereqTools, env.cmdOk ("which " ++ t) = true) (st : St) :
    check_prerequisites env st =
      (Except.ok true,
        { st with cmds := st.cmds ++ prereqTools.map (fun t => "which " ++ t) }) := by
  unfold check_prerequisites
  rw [step_bind_ok _ _ _ _ _ (probeTools_allOk env prereqTools st hw)]
  rfl

/-- C10: an answer to the component-selection menu other than 1-5 is not
re-prompted: the components key is never stored (the selection step returns
the configuration unchanged), and the run aborts with
`KeyError('components')` — after the domain/email/IP prompts — exiting 1. -/
theorem C10_invalid_choice :
    ∀ (c : String) (rest : List Inp) (cfg2 : Config) (rest2 : List Inp),
      pyStrip c ≠ "" →
      pyStrip c ∉ (["1", "2", "3", "4", "5"] : List String) →
      collectGeneralR emptyConfig rest = (Except.ok cfg2, rest2) →
      (selectComponentsR emptyConfig (Inp.line c :: rest) =
          (Except.ok emptyConfig, rest) ∧
        collectConfigR emptyConfig (Inp.line c :: rest) =
          (Except.error (Err.keyErr "components"), rest2)) ∧
      (∀ env : Env, (∀ t ∈ prereqTools, env.cmdOk ("which " ++ t) = true) →
        (mainGo env emptyConfig (Inp.line "y" :: Inp.line c :: rest)).exitCode = 1) := by
  intro c rest cfg2 rest2 hne hnotin hgen
  have n1 : pyStrip c ≠ "1" := fun hh => hnotin (by rw [hh]; simp)
  have n2 : pyStrip c ≠ "2" := fun hh => hnotin (by rw [hh]; simp)
  have n3 : pyStrip c ≠ "3" := fun hh => hnotin (by rw [hh]; simp)
  have n4 : pyStrip c ≠ "4" := fun hh => hnotin (by rw [hh]; simp)
  have n5 : pyStrip c ≠ "5" := fun hh => hnotin (by rw [hh]; simp)
  have hsel : selectComponentsR emptyConfig (Inp.line c :: rest) =
      (Except.ok emptyConfig, rest) := by
    unfold selectComponentsR
    rw [rd_bind_ok _ _ _ _ _
      (show getInputD "1" (Inp.line c :: rest) = (Except.ok (pyStrip c), rest) from by
        simp [getInputD, hne])]
    rw [if_neg n1, if_neg n2, if_neg n3, if_neg n4, if_neg n5, rd_pure_apply]
  have hc2 : cfg2.components = none := by
    obtain ⟨a, _, _, _⟩ := collectGeneralR_fields _ _ _ _ hgen
    rw [a]
    rfl
  have hcoll : collectConfigR emptyConfig (Inp.line c :: rest) =
      (Except.error (Err.keyErr "components"), rest2) := by
    unfold collectConfigR
    rw [rd_bind_ok _ _ _ _ _ hsel]
    rw [rd_bind_ok _ _ _ _ _ hgen]
    rw [rd_bind_err _ _ _ _ _
      (show reqRd cfg2.components "components" rest2 =
        (Except.error (Err.keyErr "components"), rest2) from by rw [hc2]; rfl)]
  refine ⟨⟨hsel, hcoll⟩, ?_⟩
  intro env hw
  have hcd : ∀ st' : St, st'.stdin = Inp.line c :: rest →
      collect_deployment_config emptyConfig st' =
        (Except.error (Err.keyErr "components"), { st' with stdin := rest2 }) := by
    intro st' hst
    unfold collect_deployment_config
    apply step_bind_err
    simp [liftRd, hst, hcoll]
  have hbody : run_deployment_body env emptyConfig
      (initSt (Inp.line "y" :: Inp.line c :: rest)) =
      (Except.error (Err.keyErr "components"),
        { stdin := rest2, files := []
          cmds := prereqTools.map (fun t => "which " ++ t) }) := by
    unfold run_deployment_body
    rw [step_bind_ok _ _ _ _ _
      (show confirm_action (initSt (Inp.line "y" :: Inp.line c :: rest)) =
        (Except.ok true, { stdin := Inp.line c :: rest, files := [], cmds := [] })
        from rfl)]
    simp only [eq_self_iff_true, if_true]
    rw [step_bind_ok _ _ _ _ _ (check_prerequisites_allOk env hw _)]
    simp only [eq_self_iff_true, if_true]
    rw [step_bind_err _ _ _ _ _ (hcd _ rfl)]
    rfl
  unfold mainGo run_deployment
  rw [hbody]

/-- The general-configuration answers used in the C10 witness. -/
def c10Rest : List Inp := [Inp.line "magma.local", Inp.line "a@b.c", Inp.line "1.2.3.4"]

/-- The configuration the general prompts build in the C10 witness. -/
def c10Cfg : Config :=
  Config.mk none (some "magma.local") (some "a@b.c") (some "1.2.3.4") none none none

/-- Witness for `C10_invalid_choice`: menu answer `9`. -/
theorem C10_invalid_choice_witness :
    collectConfigR emptyConfig (Inp.line "9" :: c10Rest) =
      (Except.error (Err.keyErr "components"), []) ∧
    (mainGo envAllOk emptyConfig
      (Inp.line "y" :: Inp.line "9" :: c10Rest)).exitCode = 1 :=
  ⟨(C10_invalid_choice "9" c10Rest c10Cfg [] (by decide) (by decide) (by rfl)).1.2,
   (C10_invalid_choice "9" c10Rest c10Cfg [] (by decide) (by decide) (by rfl)).2
     envAllOk (fun t _ => rfl)⟩
